import Mathlib

/-!
CWCom client protocol (`cwprotocol.c`, `cwprotocol.h`)

A shallow embedding of the packet structures, the global session state and
the five functions of `cwprotocol.c`, followed by theorems about them.

Modelling conventions.

* `unsigned short` and `unsigned int` fields hold natural numbers, `int`
  objects hold integers; the conversions C performs on assignment and on
  `++` are written out (`to_uint32`, `to_int32`).  Signed overflow of
  `tx_sequence++`, which ISO C leaves undefined, is modelled as
  two's-complement wrap-around; whatever an implementation does there, no
  `int` value equals `INT_MAX + 1`.
* `char` arrays are vectors of byte values of the declared length.
* A C string is the list of its bytes; scanning stops at the first NUL.
* `snprintf` is modelled on the format strings made of ordinary bytes, `%%`
  and `%s` with its argument passed.  On every other format string the model
  gives no result (`none`): the call is undefined in C or outside this
  fragment, and the real call may store other bytes or not return.  The
  functions that call `snprintf` therefore have an optional result.
* `send` appends a message to the log of the world and returns the value the
  transport gives (a parameter `net`, indexed by the number of messages sent
  before); the callers in `cwprotocol.c` discard that value.
-/

namespace CWProtocol

/-! ## Constants of `cwprotocol.h` -/

/-- Bytes of a string literal (ASCII). -/
def c_literal (s : String) : List Nat := s.toList.map Char.toNat

/-- Constant `#define INTERFACE_VERSION "irmc v0.3.3"`. -/
def INTERFACE_VERSION : List Nat := c_literal "irmc v0.3.3"

/-- Constant `#define DIS 0x0002`. -/
abbrev DIS : Nat := 0x0002
/-- Constant `#define DAT 0x0003`. -/
abbrev DAT : Nat := 0x0003
/-- Constant `#define CON 0x0004`. -/
abbrev CON : Nat := 0x0004
/-- Constant `#define ACK 0x0005`. -/
abbrev ACK : Nat := 0x0005

/-- Constant `#define SIZE_COMMAND_PACKET 4`. -/
abbrev SIZE_COMMAND_PACKET : Nat := 4
/-- Constant `#define SIZE_DATA_PACKET 496`. -/
abbrev SIZE_DATA_PACKET : Nat := 496
/-- Constant `#define SIZE_DATA_PACKET_PAYLOAD 492`. -/
abbrev SIZE_DATA_PACKET_PAYLOAD : Nat := 492

/-- Constant `#define SIZE_ID 128`. -/
abbrev SIZE_ID : Nat := 128
/-- Constant `#define SIZE_STATUS 128`. -/
abbrev SIZE_STATUS : Nat := 128
/-- Constant `#define SIZE_CODE 51`. -/
abbrev SIZE_CODE : Nat := 51

/-- Constant `#define DEFAULT_CHANNEL 103`. -/
abbrev DEFAULT_CHANNEL : Nat := 103

/-! ## Machine integers -/

/-- Width in bytes of `char`. -/
abbrev sizeof_char : Nat := 1
/-- Width in bytes of `unsigned short`. -/
abbrev sizeof_short : Nat := 2
/-- Width in bytes of `int` and `unsigned int`. -/
abbrev sizeof_int : Nat := 4

/-- Largest value of `int`. -/
abbrev INT_MAX : Int := 2147483647
/-- Smallest value of `int`. -/
abbrev INT_MIN : Int := -2147483648

/-- Value of a 32-bit `int` holding the low 32 bits of `x` (two's complement). -/
def to_int32 (x : Int) : Int := (x + 2147483648) % 4294967296 - 2147483648

/-- Conversion of an integer value to `unsigned int` (reduction modulo 2^32). -/
def to_uint32 (x : Int) : Nat := (x % 4294967296).toNat

/-! ## Packet structures -/

/-- Structure `struct command_packet_format`. -/
structure command_packet_format where
  /-- Member `unsigned short command; // CON / DIS`. -/
  command : Nat
  /-- Member `unsigned short channel; // Channel number`. -/
  channel : Nat
deriving DecidableEq

/-- Structure `struct data_packet_format`. -/
structure data_packet_format where
  /-- Member `unsigned short command;`. -/
  command : Nat
  /-- Member `unsigned short length;`. -/
  length : Nat
  /-- Member `char id[SIZE_ID];`. -/
  id : Mathlib.Vector Nat SIZE_ID
  /-- Member `char a1[4];`. -/
  a1 : Mathlib.Vector Nat 4
  /-- Member `unsigned int sequence;`. -/
  sequence : Nat
  /-- Member `unsigned int a21;`. -/
  a21 : Nat
  /-- Member `unsigned int a22;`. -/
  a22 : Nat
  /-- Member `unsigned int a23;`. -/
  a23 : Nat
  /-- Member `signed int code[SIZE_CODE];`. -/
  code : Mathlib.Vector Int SIZE_CODE
  /-- Member `unsigned int n;`. -/
  n : Nat
  /-- Member `char status[SIZE_STATUS];`. -/
  status : Mathlib.Vector Nat SIZE_STATUS
  /-- Member `char a4[8];`. -/
  a4 : Mathlib.Vector Nat 8
deriving DecidableEq

/-! ## Layout and object representation -/

/-- Members of `struct command_packet_format` in declaration order, with their widths. -/
def command_packet_fields : List (String × Nat) :=
  [("command", sizeof_short), ("channel", sizeof_short)]

/-- Members of `struct data_packet_format` in declaration order, with their widths. -/
def data_packet_fields : List (String × Nat) :=
  [("command", sizeof_short), ("length", sizeof_short), ("id", SIZE_ID * sizeof_char),
   ("a1", 4 * sizeof_char), ("sequence", sizeof_int), ("a21", sizeof_int),
   ("a22", sizeof_int), ("a23", sizeof_int), ("code", SIZE_CODE * sizeof_int),
   ("n", sizeof_int), ("status", SIZE_STATUS * sizeof_char), ("a4", 8 * sizeof_char)]

/-- Offsets of the members when laid out one after the other from `base` without padding. -/
def offsets_from (base : Nat) : List (String × Nat) → List (String × Nat)
  | [] => []
  | (name, width) :: rest => (name, base) :: offsets_from (base + width) rest

/-- Offsets of the members of a structure laid out without padding. -/
def field_offsets (fields : List (String × Nat)) : List (String × Nat) :=
  offsets_from 0 fields

/-- Total size of a structure laid out without padding. -/
def struct_size (fields : List (String × Nat)) : Nat :=
  (fields.map Prod.snd).sum

/-- Little-endian bytes of an unsigned value stored in `width` bytes. -/
def le_bytes : Nat → Nat → List Nat
  | 0, _ => []
  | width + 1, v => v % 256 :: le_bytes width (v / 256)

/-- Little-endian bytes of a `signed int` (two's complement). -/
def int_bytes (v : Int) : List Nat := le_bytes sizeof_int (to_uint32 v)

/-- Object representation of a command packet: members in declaration order, little-endian. -/
def command_packet_format.bytes (p : command_packet_format) : List Nat :=
  le_bytes sizeof_short p.command ++ le_bytes sizeof_short p.channel

/-- Object representation of a data packet: members in declaration order, little-endian. -/
def data_packet_format.bytes (p : data_packet_format) : List Nat :=
  le_bytes sizeof_short p.command ++ le_bytes sizeof_short p.length ++ p.id.toList ++
  p.a1.toList ++ le_bytes sizeof_int p.sequence ++ le_bytes sizeof_int p.a21 ++
  le_bytes sizeof_int p.a22 ++ le_bytes sizeof_int p.a23 ++
  (p.code.toList.map int_bytes).flatten ++ le_bytes sizeof_int p.n ++ p.status.toList ++
  p.a4.toList

/-! ## `snprintf` -/

/-- A C string as the callee reads it: the bytes before the first NUL. -/
def c_str (s : List Nat) : List Nat := s.takeWhile (fun b => b ≠ 0)

/-- Expansion of a format string over string arguments.  Ordinary bytes are
copied, `%%` gives one `%` (37), `%s` (37, 115) gives the next argument.  For
any other conversion specification, and for `%s` with no argument left, there is
no result: the call needs an argument that was not passed or has another type
(undefined in C, as for `%d`, `%n` or a second `%s`), or it uses flags, a width
or a precision, which this fragment leaves out. -/
def format : List Nat → List (List Nat) → Option (List Nat)
  | [], _ => some []
  | c :: rest, args =>
    if c = 37 then
      match rest, args with
      | 37 :: rest2, _ => (format rest2 args).map (fun t => 37 :: t)
      | 115 :: rest2, a :: args2 => (format rest2 args2).map (fun t => a ++ t)
      | _, _ => none
    else (format rest args).map (fun t => c :: t)

/-- The `char` array `buf` of `n` bytes after `snprintf` has stored the expansion
`out` with bound `size`: the first `size - 1` bytes of `out`, then a NUL; the
bytes of `buf` behind the NUL keep their content.  Nothing is stored when `size`
is 0. -/
def store {n : Nat} (buf : Mathlib.Vector Nat n) (size : Nat) (out : List Nat) :
    Mathlib.Vector Nat n :=
  let k := min out.length (size - 1)
  if size = 0 then buf
  else Mathlib.Vector.ofFn (fun i : Fin n =>
    if i.val < k then out.getD i.val 0 else if i.val = k then 0 else buf.get i)

/-- Call `snprintf(buf, size, fmt, args...)` on a `char` array of `n` bytes: the
expansion of the format is stored in the buffer; there is no result when the
expansion has none.  The callers discard the returned count, so only the buffer
is returned. -/
def snprintf {n : Nat} (buf : Mathlib.Vector Nat n) (size : Nat) (fmt : List Nat)
    (args : List (List Nat)) : Option (Mathlib.Vector Nat n) :=
  (format (c_str fmt) (args.map c_str)).map (store buf size)

/-! ## Session state and the transport -/

/-- The object a `send` call points at. -/
inductive Obj where
  | command (p : command_packet_format)
  | data (p : data_packet_format)
deriving DecidableEq

/-- Object representation of the object handed to `send`. -/
def Obj.bytes : Obj → List Nat
  | Obj.command p => p.bytes
  | Obj.data p => p.bytes

/-- One `send(fd, buf, len, 0)` call as the transport sees it. -/
structure Msg where
  /-- Descriptor the message is sent on. -/
  fd : Int
  /-- Object `buf` points at, as it is at the time of the call. -/
  buf : Obj
  /-- Number of bytes `len` to send. -/
  len : Nat
deriving DecidableEq

/-- Bytes put on the wire by a message: the first `len` bytes of the object. -/
def Msg.wire (m : Msg) : List Nat := m.buf.bytes.take m.len

/-- Global variables of `cwprotocol.c`. -/
structure Session where
  /-- Structure `struct command_packet_format connect_packet = {CON, DEFAULT_CHANNEL};`. -/
  connect_packet : command_packet_format
  /-- Structure `struct command_packet_format disconnect_packet = {DIS, 0};`. -/
  disconnect_packet : command_packet_format
  /-- Structure `struct data_packet_format id_packet;`. -/
  id_packet : data_packet_format
  /-- Structure `struct data_packet_format rx_data_packet;`. -/
  rx_data_packet : data_packet_format
  /-- Structure `struct data_packet_format tx_data_packet;`. -/
  tx_data_packet : data_packet_format
  /-- Member `int tx_sequence = 0`. -/
  tx_sequence : Int
  /-- Member `int rx_sequence;`. -/
  rx_sequence : Int
  /-- Member `int fd_socket;`. -/
  fd_socket : Int
deriving DecidableEq

/-- The program state together with the log of messages handed to `send`, oldest first. -/
structure World where
  /-- Global variables. -/
  g : Session
  /-- Messages sent so far. -/
  sent : List Msg
deriving DecidableEq

/-- A data packet with every byte zero (static storage before any assignment). -/
def zero_data_packet : data_packet_format :=
  { command := 0, length := 0, id := Mathlib.Vector.replicate SIZE_ID 0,
    a1 := Mathlib.Vector.replicate 4 0, sequence := 0, a21 := 0, a22 := 0, a23 := 0,
    code := Mathlib.Vector.replicate SIZE_CODE 0, n := 0,
    status := Mathlib.Vector.replicate SIZE_STATUS 0, a4 := Mathlib.Vector.replicate 8 0 }

/-- The globals as the initialisers of `cwprotocol.c` and zero-initialisation leave them. -/
def initial_session : Session :=
  { connect_packet := { command := CON, channel := DEFAULT_CHANNEL },
    disconnect_packet := { command := DIS, channel := 0 },
    id_packet := zero_data_packet, rx_data_packet := zero_data_packet,
    tx_data_packet := zero_data_packet, tx_sequence := 0, rx_sequence := 0, fd_socket := 0 }

/-- The world at program start: initial globals, nothing sent. -/
def initial_world : World := { g := initial_session, sent := [] }

/-- Call `send(fd, buf, len, 0)`: the message is logged; the returned value is the
one the transport `net` gives for this call. -/
def send (net : Nat → Int) (w : World) (fd : Int) (buf : Obj) (len : Nat) : Int × World :=
  (net w.sent.length, { w with sent := w.sent ++ [{ fd := fd, buf := buf, len := len }] })

/-- Loop `for (i = lo; i < hi; i++) body`. -/
def for_loop {σ : Type} (lo hi : Nat) (body : Nat → σ → σ) (s : σ) : σ :=
  (List.range' lo (hi - lo)).foldl (fun acc i => body i acc) s

/-- Assignment `code[i] = v`; an index outside the array stores nothing. -/
def set_code (p : data_packet_format) (i : Nat) (v : Int) : data_packet_format :=
  if h : i < SIZE_CODE then { p with code := p.code.set ⟨i, h⟩ v } else p

/-! ## The functions of `cwprotocol.c` -/

/-- Function `int prepare_id (struct data_packet_format *id_packet, char *id)`.
There is no result when a call of `snprintf` has none. -/
def prepare_id (id_packet : data_packet_format) (id : List Nat) :
    Option (Int × data_packet_format) := do
  let p := id_packet
  let p := { p with command := DAT }
  let p := { p with length := SIZE_DATA_PACKET_PAYLOAD }
  let id_field ← snprintf p.id SIZE_ID id [c_literal "%s"]
  let p := { p with id := id_field }
  let p := { p with sequence := 0 }
  let p := { p with n := 0 }
  let status_field ← snprintf p.status SIZE_ID INTERFACE_VERSION []
  let p := { p with status := status_field }
  let p := { p with a21 := 1 }
  let p := { p with a22 := 755 }
  let p := { p with a23 := 65535 }
  pure (0, p)

/-- Function `int prepare_tx (struct data_packet_format *tx_packet, char *id)`.
There is no result when a call of `snprintf` has none. -/
def prepare_tx (tx_packet : data_packet_format) (id : List Nat) :
    Option (Int × data_packet_format) := do
  let p := tx_packet
  let p := { p with command := DAT }
  let p := { p with length := SIZE_DATA_PACKET_PAYLOAD }
  let id_field ← snprintf p.id SIZE_ID id [c_literal "%s"]
  let p := { p with id := id_field }
  let p := { p with sequence := 0 }
  let p := { p with n := 0 }
  let p := for_loop 1 51 (fun i q => set_code q i 0) p
  let p := { p with a21 := 0 }
  let p := { p with a22 := 755 }
  let p := { p with a23 := 16777215 }
  let status_field ← snprintf p.status SIZE_STATUS (c_literal "?") []
  let p := { p with status := status_field }
  pure (0, p)

/-- Function `void identifyclient(void)`. -/
def identifyclient (net : Nat → Int) (w : World) : Unit × World :=
  let w := { w with g := { w.g with tx_sequence := to_int32 (w.g.tx_sequence + 1) } }
  let w := { w with g := { w.g with
    id_packet := { w.g.id_packet with sequence := to_uint32 w.g.tx_sequence } } }
  let w := (send net w w.g.fd_socket (Obj.command w.g.connect_packet) SIZE_COMMAND_PACKET).2
  let w := (send net w w.g.fd_socket (Obj.data w.g.id_packet) SIZE_DATA_PACKET).2
  ((), w)

/-- Function `int send_latch (void)`. -/
def send_latch (net : Nat → Int) (w : World) : Int × World :=
  let w := { w with g := { w.g with tx_sequence := to_int32 (w.g.tx_sequence + 1) } }
  let w := { w with g := { w.g with
    tx_data_packet := { w.g.tx_data_packet with sequence := to_uint32 w.g.tx_sequence } } }
  let w := { w with g := { w.g with tx_data_packet := set_code w.g.tx_data_packet 0 (-1) } }
  let w := { w with g := { w.g with tx_data_packet := set_code w.g.tx_data_packet 1 1 } }
  let w := { w with g := { w.g with tx_data_packet := { w.g.tx_data_packet with n := 2 } } }
  let w := for_loop 0 5
    (fun _ v => (send net v v.g.fd_socket (Obj.data v.g.tx_data_packet) SIZE_DATA_PACKET).2) w
  let w := { w with g := { w.g with tx_data_packet := { w.g.tx_data_packet with n := 0 } } }
  (0, w)

/-- Function `int send_unlatch (void)`. -/
def send_unlatch (net : Nat → Int) (w : World) : Int × World :=
  let w := { w with g := { w.g with tx_sequence := to_int32 (w.g.tx_sequence + 1) } }
  let w := { w with g := { w.g with
    tx_data_packet := { w.g.tx_data_packet with sequence := to_uint32 w.g.tx_sequence } } }
  let w := { w with g := { w.g with tx_data_packet := set_code w.g.tx_data_packet 0 (-1) } }
  let w := { w with g := { w.g with tx_data_packet := set_code w.g.tx_data_packet 1 2 } }
  let w := { w with g := { w.g with tx_data_packet := { w.g.tx_data_packet with n := 2 } } }
  let w := for_loop 0 5
    (fun _ v => (send net v v.g.fd_socket (Obj.data v.g.tx_data_packet) SIZE_DATA_PACKET).2) w
  let w := { w with g := { w.g with tx_data_packet := { w.g.tx_data_packet with n := 0 } } }
  (0, w)

/-! ## Sequences of calls -/

/-- The three engine operations a caller can invoke. -/
inductive Call where
  | identify
  | latch
  | unlatch
deriving DecidableEq

/-- The world after one call; the value the call returns is dropped. -/
def Call.exec (net : Nat → Int) : Call → World → World
  | Call.identify, w => (identifyclient net w).2
  | Call.latch, w => (send_latch net w).2
  | Call.unlatch, w => (send_unlatch net w).2

/-- The world after a list of calls made one after the other. -/
def run (net : Nat → Int) (cs : List Call) (w : World) : World :=
  cs.foldl (fun v c => c.exec net v) w

/-- Messages a call adds to the log when made in world `w`. -/
def emitted (net : Nat → Int) (c : Call) (w : World) : List Msg :=
  (c.exec net w).sent.drop w.sent.length

/-- Messages added by call number `k` (counted from 0) of the list `cs` started in `w`. -/
def emitted_at (net : Nat → Int) (cs : List Call) (w : World) (k : Nat) : List Msg :=
  match cs[k]? with
  | some c => emitted net c (run net (cs.take k) w)
  | none => []

/-- The `sequence` members of the data packets among some messages, in order. -/
def data_sequences (ms : List Msg) : List Nat :=
  ms.filterMap (fun m => match m.buf with
    | Obj.data p => some p.sequence
    | Obj.command _ => none)

/-- Two data packets agree on the members no engine function assigns: command,
length, id, a1, a21, a22, a23, status and a4. -/
def same_fixed_members (p q : data_packet_format) : Prop :=
  p.command = q.command ∧ p.length = q.length ∧ p.id = q.id ∧ p.a1 = q.a1 ∧
  p.a21 = q.a21 ∧ p.a22 = q.a22 ∧ p.a23 = q.a23 ∧ p.status = q.status ∧ p.a4 = q.a4

/-! ## Program runs -/

/-- One step of a program that uses `cwprotocol.c`: `prepare_id (&id_packet, id)`,
`prepare_tx (&tx_data_packet, id)`, or one of the three engine calls. -/
inductive Op where
  | prepare_id (id : List Nat)
  | prepare_tx (id : List Nat)
  | call (c : Call)

/-- The world after one step; no result when the step has none. -/
def Op.exec (net : Nat → Int) : Op → World → Option World
  | Op.prepare_id id, w =>
    (CWProtocol.prepare_id w.g.id_packet id).map
      (fun r => { w with g := { w.g with id_packet := r.2 } })
  | Op.prepare_tx id, w =>
    (CWProtocol.prepare_tx w.g.tx_data_packet id).map
      (fun r => { w with g := { w.g with tx_data_packet := r.2 } })
  | Op.call c, w => some (c.exec net w)

/-- A world whose counter holds the largest `int`. -/
def overflow_world : World :=
  { g := { initial_session with tx_sequence := INT_MAX }, sent := [] }

/-- The initial session after `prepare_id (&id_packet, id)` and
`prepare_tx (&tx_data_packet, id)`, when both calls return. -/
def prepared_session (id : List Nat) : Option Session := do
  let r1 ← prepare_id initial_session.id_packet id
  let r2 ← prepare_tx initial_session.tx_data_packet id
  pure { initial_session with id_packet := r1.2, tx_data_packet := r2.2 }

/-- The prepared initial session with nothing sent yet. -/
def prepared_world (id : List Nat) : Option World :=
  (prepared_session id).map (fun g => { g := g, sent := [] })

/-- The world `prepared_world` gives for the id "TEST" (see `prepared_test_world`). -/
def test_world : World := (prepared_world (c_literal "TEST")).getD initial_world

/-- A world whose connect packet holds channel 5. -/
def channel5_world : World :=
  { g := { initial_session with connect_packet := { command := CON, channel := 5 } },
    sent := [] }

/-- A transport on which no `send` fails: each call reports a non-negative count. -/
def net_ok : Nat → Int := fun _ => 496

/-- A transport on which every `send` fails (returns -1). -/
def net_fail : Nat → Int := fun _ => -1

/-- A data packet record holding leftover data: every byte of it is 0xAA. -/
def dirty_data_packet : data_packet_format :=
  { command := 43690, length := 43690, id := Mathlib.Vector.replicate SIZE_ID 170,
    a1 := Mathlib.Vector.replicate 4 170, sequence := 2863311530, a21 := 2863311530,
    a22 := 2863311530, a23 := 2863311530,
    code := Mathlib.Vector.replicate SIZE_CODE (-1431655766), n := 2863311530,
    status := Mathlib.Vector.replicate SIZE_STATUS 170, a4 := Mathlib.Vector.replicate 8 170 }

/-- A session of 2^32 keying calls. -/
def wrap_calls : List Call := List.replicate 4294967296 Call.latch

/-! ## Words of the specification used in comparisons -/

/-- A data packet with `code[1]` replaced by `v` (the spec's "except `code[1]`"). -/
def with_code1 (v : Int) (p : data_packet_format) : data_packet_format :=
  { p with code := p.code.set 1 v }

/-- A message whose data packet has `code[1]` replaced by `v`; command packets are kept. -/
def Msg.with_code1 (v : Int) (m : Msg) : Msg :=
  match m.buf with
  | Obj.data p => { m with buf := Obj.data (CWProtocol.with_code1 v p) }
  | Obj.command _ => m

/-! ## Basic facts -/

theorem le_bytes_length (w v : Nat) : (le_bytes w v).length = w := by
  induction w generalizing v with
  | zero => rfl
  | succ k ih => simp [le_bytes, ih]

theorem flatten_int_bytes_length (l : List Int) :
    (l.map int_bytes).flatten.length = 4 * l.length := by
  induction l with
  | nil => rfl
  | cons a t ih => simp [int_bytes, le_bytes_length, sizeof_int] at ih ⊢; omega

theorem data_bytes_length (p : data_packet_format) : p.bytes.length = 496 := by
  have h := flatten_int_bytes_length p.code.toList
  simp only [data_packet_format.bytes, List.length_append, le_bytes_length, h,
    Mathlib.Vector.toList_length]
  rfl

theorem command_bytes_length (p : command_packet_format) : p.bytes.length = 4 := by
  simp [command_packet_format.bytes, le_bytes_length, sizeof_short]

theorem data_wire_full (fd : Int) (p : data_packet_format) :
    Msg.wire { fd := fd, buf := Obj.data p, len := SIZE_DATA_PACKET } = p.bytes := by
  have h := data_bytes_length p
  simp [Msg.wire, Obj.bytes, SIZE_DATA_PACKET, List.take_of_length_le, h]

theorem command_wire_full (fd : Int) (p : command_packet_format) :
    Msg.wire { fd := fd, buf := Obj.command p, len := SIZE_COMMAND_PACKET } = p.bytes := by
  have h := command_bytes_length p
  simp [Msg.wire, Obj.bytes, SIZE_COMMAND_PACKET, List.take_of_length_le, h]

theorem to_int32_of_range (x : Int) (h1 : INT_MIN ≤ x) (h2 : x ≤ INT_MAX) : to_int32 x = x := by
  unfold to_int32
  simp only [INT_MIN, INT_MAX] at h1 h2
  omega

theorem to_int32_range (x : Int) : INT_MIN ≤ to_int32 x ∧ to_int32 x ≤ INT_MAX := by
  unfold to_int32
  simp only [INT_MIN, INT_MAX]
  omega

theorem to_uint32_of_nonneg (x : Int) (h1 : 0 ≤ x) (h2 : x ≤ INT_MAX) :
    (to_uint32 x : Int) = x := by
  unfold to_uint32
  simp only [INT_MAX] at h2
  omega

theorem to_uint32_to_int32 (x : Int) : to_uint32 (to_int32 x) = to_uint32 x := by
  unfold to_uint32 to_int32
  congr 1
  omega

theorem to_int32_succ (x : Int) : to_int32 (to_int32 x + 1) = to_int32 (x + 1) := by
  unfold to_int32
  omega

theorem for_loop_send_five (net : Nat → Int) (w : World) :
    for_loop 0 5
      (fun _ v => (send net v v.g.fd_socket (Obj.data v.g.tx_data_packet) SIZE_DATA_PACKET).2) w
    = { g := w.g,
        sent := w.sent ++ List.replicate 5
                  (Msg.mk w.g.fd_socket (Obj.data w.g.tx_data_packet) SIZE_DATA_PACKET) } := by
  simp [for_loop, send, List.range', List.replicate]

/-- The whole effect of `send_latch`. -/
theorem send_latch_eq (net : Nat → Int) (w : World) :
    send_latch net w =
      (0, { g := { w.g with
                    tx_sequence := to_int32 (w.g.tx_sequence + 1),
                    tx_data_packet := { w.g.tx_data_packet with
                      sequence := to_uint32 (to_int32 (w.g.tx_sequence + 1)),
                      code := (w.g.tx_data_packet.code.set 0 (-1)).set 1 1,
                      n := 0 } },
            sent := w.sent ++ List.replicate 5 (Msg.mk w.g.fd_socket
                (Obj.data { w.g.tx_data_packet with
                      sequence := to_uint32 (to_int32 (w.g.tx_sequence + 1)),
                      code := (w.g.tx_data_packet.code.set 0 (-1)).set 1 1,
                      n := 2 }) SIZE_DATA_PACKET) }) := by
  simp [send_latch, for_loop_send_five, set_code]

/-- The whole effect of `send_unlatch`. -/
theorem send_unlatch_eq (net : Nat → Int) (w : World) :
    send_unlatch net w =
      (0, { g := { w.g with
                    tx_sequence := to_int32 (w.g.tx_sequence + 1),
                    tx_data_packet := { w.g.tx_data_packet with
                      sequence := to_uint32 (to_int32 (w.g.tx_sequence + 1)),
                      code := (w.g.tx_data_packet.code.set 0 (-1)).set 1 2,
                      n := 0 } },
            sent := w.sent ++ List.replicate 5 (Msg.mk w.g.fd_socket
                (Obj.data { w.g.tx_data_packet with
                      sequence := to_uint32 (to_int32 (w.g.tx_sequence + 1)),
                      code := (w.g.tx_data_packet.code.set 0 (-1)).set 1 2,
                      n := 2 }) SIZE_DATA_PACKET) }) := by
  simp [send_unlatch, for_loop_send_five, set_code]

/-- The whole effect of `identifyclient`. -/
theorem identifyclient_eq (net : Nat → Int) (w : World) :
    identifyclient net w =
      ((), { g := { w.g with
                    tx_sequence := to_int32 (w.g.tx_sequence + 1),
                    id_packet := { w.g.id_packet with
                      sequence := to_uint32 (to_int32 (w.g.tx_sequence + 1)) } },
             sent := w.sent ++
               [Msg.mk w.g.fd_socket (Obj.command w.g.connect_packet) SIZE_COMMAND_PACKET,
                Msg.mk w.g.fd_socket
                  (Obj.data { w.g.id_packet with
                      sequence := to_uint32 (to_int32 (w.g.tx_sequence + 1)) })
                  SIZE_DATA_PACKET] }) := by
  simp [identifyclient, send]

theorem vector_set_set {α : Type} {n : Nat} (v : Mathlib.Vector α n) (i : Fin n) (a b : α) :
    (v.set i a).set i b = v.set i b := by
  apply Mathlib.Vector.ext
  intro m
  simp only [Mathlib.Vector.get_set_eq_if]
  split_ifs <;> rfl

theorem to_int32_add (a n : Int) : to_int32 (to_int32 a + n) = to_int32 (a + n) := by
  unfold to_int32
  omega

theorem to_uint32_succ_congr (a b : Int) (h : to_int32 a = to_int32 b) :
    to_uint32 (a + 1) = to_uint32 (b + 1) := by
  unfold to_int32 at h
  unfold to_uint32
  congr 1
  omega

/-! ## Facts about sequences of calls -/

theorem exec_tx_sequence (net : Nat → Int) (c : Call) (w : World) :
    (c.exec net w).g.tx_sequence = to_int32 (w.g.tx_sequence + 1) := by
  cases c
  · simp [Call.exec, identifyclient_eq]
  · simp [Call.exec, send_latch_eq]
  · simp [Call.exec, send_unlatch_eq]

theorem run_cons (net : Nat → Int) (c : Call) (cs : List Call) (w : World) :
    run net (c :: cs) w = run net cs (c.exec net w) := rfl

theorem run_tx_sequence (net : Nat → Int) (cs : List Call) (w : World) :
    to_int32 (run net cs w).g.tx_sequence = to_int32 (w.g.tx_sequence + cs.length) := by
  induction cs generalizing w with
  | nil => simp [run]
  | cons c cs ih =>
    rw [run_cons, ih, exec_tx_sequence, to_int32_add]
    congr 1
    simp only [List.length_cons]
    push_cast
    ring

theorem emitted_data_sequences (net : Nat → Int) (c : Call) (w : World) :
    data_sequences (emitted net c w) ≠ [] ∧
    ∀ s ∈ data_sequences (emitted net c w), s = to_uint32 (w.g.tx_sequence + 1) := by
  cases c
  · simp [emitted, Call.exec, identifyclient_eq, data_sequences, to_uint32_to_int32]
  · simp [emitted, Call.exec, send_latch_eq, data_sequences, to_uint32_to_int32,
      List.replicate]
  · simp [emitted, Call.exec, send_unlatch_eq, data_sequences, to_uint32_to_int32,
      List.replicate]

theorem emitted_at_data_sequences (net : Nat → Int) (cs : List Call) (w : World) (k : Nat)
    (hk : k < cs.length) :
    data_sequences (emitted_at net cs w k) ≠ [] ∧
    ∀ s ∈ data_sequences (emitted_at net cs w k), s = to_uint32 (w.g.tx_sequence + k + 1) := by
  have hget : cs[k]? = some cs[k] := List.getElem?_eq_getElem hk
  have hlen : (cs.take k).length = k := by
    rw [List.length_take]; omega
  have hseq := run_tx_sequence net (cs.take k) w
  rw [hlen] at hseq
  have h := emitted_data_sequences net cs[k] (run net (cs.take k) w)
  rw [to_uint32_succ_congr _ _ hseq] at h
  simp only [emitted_at, hget]
  exact h

theorem wrap_calls_length : wrap_calls.length = 4294967296 := List.length_replicate _ _

/-! ## Facts about `snprintf` and the two `prepare` functions -/

theorem format_cons_ne (c : Nat) (rest : List Nat) (args : List (List Nat)) (h : c ≠ 37) :
    format (c :: rest) args = (format rest args).map (fun t => c :: t) := by
  rw [format.eq_def]
  simp [h]

/-- A format string without `%` expands to itself. -/
theorem format_no_percent (s : List Nat) (args : List (List Nat)) (h : 37 ∉ s) :
    format s args = some s := by
  induction s with
  | nil => simp [format]
  | cons c rest ih =>
    have hc : c ≠ 37 := fun e => h (by simp [e])
    have hr : 37 ∉ rest := fun e => h (List.mem_cons_of_mem _ e)
    rw [format_cons_ne _ _ _ hc, ih hr]
    rfl

/-- A byte list without NUL is read whole as a C string. -/
theorem c_str_no_nul (s : List Nat) (h : 0 ∉ s) : c_str s = s := by
  unfold c_str
  rw [List.takeWhile_eq_self_iff]
  intro x hx
  simp only [ne_eq, decide_not, Bool.not_eq_eq_eq_not, Bool.not_true, decide_eq_false_iff_not]
  intro e
  exact h (e ▸ hx)

/-- An id without NUL and without `%` is expanded to itself. -/
theorem plain_id_format (id : List Nat) (h0 : 0 ∉ id) (h37 : 37 ∉ id) :
    format (c_str id) ([c_literal "%s"].map c_str) = some id := by
  rw [c_str_no_nul id h0, format_no_percent id _ h37]

theorem interface_version_format :
    format (c_str INTERFACE_VERSION) (([] : List (List Nat)).map c_str) =
      some INTERFACE_VERSION := by
  decide

theorem question_mark_format :
    format (c_str (c_literal "?")) (([] : List (List Nat)).map c_str) =
      some (c_literal "?") := by
  decide

/-- When the expansion fits, it is stored at the start of the buffer, then a NUL. -/
theorem store_start {n : Nat} (buf : Mathlib.Vector Nat n) (size : Nat) (out : List Nat)
    (h1 : out.length < size) (h2 : size ≤ n) :
    (store buf size out).toList.take (out.length + 1) = out ++ [0] := by
  have hs : size ≠ 0 := by omega
  have hk : min out.length (size - 1) = out.length := by omega
  simp only [store, hk, hs, if_false]
  apply List.ext_getElem
  · simp [Mathlib.Vector.toList_ofFn]; omega
  · intro i hi1 hi2
    simp only [List.length_append, List.length_singleton] at hi2
    simp only [Mathlib.Vector.toList_ofFn, List.getElem_take, List.getElem_ofFn]
    by_cases hlt : i < out.length
    · simp [hlt, List.getElem_append_left, List.getD_eq_getElem]
    · have : i = out.length := by omega
      subst this
      simp

/-- The whole buffer after an expansion was stored: the stored bytes, one NUL,
then the old content of the buffer. -/
theorem store_toList {n : Nat} (buf : Mathlib.Vector Nat n) (size : Nat) (out : List Nat)
    (h1 : 0 < size) (h2 : size ≤ n) :
    (store buf size out).toList =
      out.take (size - 1) ++ ([0] ++ buf.toList.drop (min out.length (size - 1) + 1)) := by
  have hs : size ≠ 0 := by omega
  simp only [store, hs, if_false]
  have hlen : (out.take (size - 1)).length = min out.length (size - 1) := by
    simp [Nat.min_comm]
  have hbuf : buf.toList.length = n := buf.toList_length
  apply List.ext_getElem
  · simp [Mathlib.Vector.toList_ofFn]; omega
  · intro i hi1 hi2
    have hin : i < n := by simpa [Mathlib.Vector.toList_ofFn] using hi1
    simp only [Mathlib.Vector.toList_ofFn, List.getElem_ofFn]
    by_cases hlt : i < min out.length (size - 1)
    · have hi3 : i < out.length := by omega
      rw [if_pos hlt, List.getElem_append_left (by omega)]
      simp [List.getD_eq_getElem, hi3]
    · rw [if_neg hlt, List.getElem_append_right (by omega)]
      by_cases heq : i = min out.length (size - 1)
      · rw [if_pos heq]
        simp [hlen, heq]
      · rw [if_neg heq,
          List.getElem_append_right (by simp only [hlen, List.length_singleton]; omega)]
        simp only [hlen, List.length_singleton, List.getElem_drop]
        rw [Mathlib.Vector.get_eq_get]
        simp only [List.get_eq_getElem]
        congr 1
        simp only [Fin.coe_cast]
        omega

set_option maxRecDepth 8000 in
/-- After the version string was stored the field starts with it and a NUL. -/
theorem store_interface_version (buf : Mathlib.Vector Nat SIZE_STATUS) :
    (store buf SIZE_ID INTERFACE_VERSION).toList.take 12 = c_literal "irmc v0.3.3" ++ [0] :=
  store_start buf SIZE_ID INTERFACE_VERSION (by decide) (by decide)

set_option maxRecDepth 8000 in
/-- After "?" was stored the field starts with `?` and a NUL. -/
theorem store_question_mark (buf : Mathlib.Vector Nat SIZE_STATUS) :
    (store buf SIZE_STATUS (c_literal "?")).toList.take 2 = c_literal "?" ++ [0] :=
  store_start buf SIZE_STATUS (c_literal "?") (by decide) (by decide)

/-- The whole effect of `prepare_id`: it has a result exactly when the expansion
of the id, taken as the format, has one. -/
theorem prepare_id_eq (p : data_packet_format) (id : List Nat) :
    prepare_id p id =
      (format (c_str id) ([c_literal "%s"].map c_str)).map (fun out =>
        ((0 : Int),
         { p with command := DAT, length := SIZE_DATA_PACKET_PAYLOAD,
                  id := store p.id SIZE_ID out,
                  sequence := 0, n := 0,
                  status := store p.status SIZE_ID INTERFACE_VERSION,
                  a21 := 1, a22 := 755, a23 := 65535 })) := by
  have hv : format (c_str INTERFACE_VERSION) [] = some INTERFACE_VERSION :=
    interface_version_format
  cases h : format (c_str id) ([c_literal "%s"].map c_str) with
  | none =>
    have h2 : format (c_str id) [c_str (c_literal "%s")] = none := h
    simp [prepare_id, snprintf, h2]
  | some out =>
    have h2 : format (c_str id) [c_str (c_literal "%s")] = some out := h
    simp [prepare_id, snprintf, h2, hv]

/-- Clearing a list of indices of `code` touches no other member and no other index. -/
theorem foldl_set_code_zero (l : List Nat) (p : data_packet_format) :
    ∃ c : Mathlib.Vector Int SIZE_CODE,
      l.foldl (fun acc i => set_code acc i 0) p = { p with code := c } ∧
      ∀ j : Fin SIZE_CODE, c.get j = if j.val ∈ l then 0 else p.code.get j := by
  induction l generalizing p with
  | nil => exact ⟨p.code, rfl, fun j => by simp⟩
  | cons i l ih =>
    obtain ⟨c, hc, hget⟩ := ih (set_code p i 0)
    refine ⟨c, ?_, fun j => ?_⟩
    · rw [List.foldl_cons, hc]
      unfold set_code
      split_ifs <;> rfl
    · rw [hget j]
      by_cases hj : j.val ∈ l
      · simp [hj]
      · simp only [hj, if_false, List.mem_cons, or_false]
        unfold set_code
        by_cases hi : i < SIZE_CODE
        · simp only [hi, dite_true]
          by_cases hij : j.val = i
          · have : j = ⟨i, hi⟩ := Fin.ext hij
            subst this
            simp [Mathlib.Vector.get_set_same]
          · have hne : (⟨i, hi⟩ : Fin SIZE_CODE) ≠ j := fun e => hij (by rw [← e])
            simp [hij, Mathlib.Vector.get_set_of_ne hne]
        · have hij : j.val ≠ i := fun e => hi (e ▸ j.isLt)
          simp [hi, hij]

/-- The loop of `prepare_tx` clears `code[1..50]` and nothing else. -/
theorem clear_loop_eq (p : data_packet_format) :
    ∃ c : Mathlib.Vector Int SIZE_CODE,
      for_loop 1 51 (fun i q => set_code q i 0) p = { p with code := c } ∧
      c.get 0 = p.code.get 0 ∧ ∀ j : Fin SIZE_CODE, 1 ≤ j.val → c.get j = 0 := by
  obtain ⟨c, hc, hget⟩ := foldl_set_code_zero (List.range' 1 (51 - 1)) p
  refine ⟨c, ?_, ?_, ?_⟩
  · simp only [for_loop, hc]
  · rw [hget 0]; simp
  · intro j hj
    rw [hget j]
    have hlt : j.val < 51 := j.isLt
    have hmem : j.val ∈ List.range' 1 (51 - 1) := by
      rw [List.mem_range'_1]
      omega
    rw [if_pos hmem]

/-- The whole effect of `prepare_tx` when it has a result. -/
theorem prepare_tx_eq (p : data_packet_format) (id : List Nat) :
    ∃ c : Mathlib.Vector Int SIZE_CODE,
      (c.get 0 = p.code.get 0 ∧ ∀ j : Fin SIZE_CODE, 1 ≤ j.val → c.get j = 0) ∧
      prepare_tx p id =
        (format (c_str id) ([c_literal "%s"].map c_str)).map (fun out =>
          ((0 : Int),
           { p with command := DAT, length := SIZE_DATA_PACKET_PAYLOAD,
                    id := store p.id SIZE_ID out,
                    sequence := 0, n := 0, code := c,
                    a21 := 0, a22 := 755, a23 := 16777215,
                    status := store p.status SIZE_STATUS (c_literal "?") })) := by
  have hv : format (c_str (c_literal "?")) [] = some (c_literal "?") := question_mark_format
  cases h : format (c_str id) ([c_literal "%s"].map c_str) with
  | none =>
    have h2 : format (c_str id) [c_str (c_literal "%s")] = none := h
    obtain ⟨c, -, h0, hpos⟩ := clear_loop_eq p
    exact ⟨c, ⟨h0, hpos⟩, by simp [prepare_tx, snprintf, h2]⟩
  | some out =>
    have h2 : format (c_str id) [c_str (c_literal "%s")] = some out := h
    obtain ⟨c, hc, h0, hpos⟩ := clear_loop_eq
      { p with command := DAT, length := SIZE_DATA_PACKET_PAYLOAD,
               id := store p.id SIZE_ID out, sequence := 0, n := 0 }
    refine ⟨c, ⟨h0, hpos⟩, ?_⟩
    simp only [prepare_tx, snprintf, h2, hv, hc, Option.map_some', List.map_cons, List.map_nil,
      bind, Option.bind, pure]

set_option maxRecDepth 8000 in
/-- What `prepare_id` returns when it returns. -/
theorem prepare_id_some (p : data_packet_format) (id : List Nat)
    (r : Int × data_packet_format) (h : prepare_id p id = some r) :
    ∃ out, format (c_str id) ([c_literal "%s"].map c_str) = some out ∧
      r = (0, { p with command := DAT, length := SIZE_DATA_PACKET_PAYLOAD,
                       id := store p.id SIZE_ID out,
                       sequence := 0, n := 0,
                       status := store p.status SIZE_ID INTERFACE_VERSION,
                       a21 := 1, a22 := 755, a23 := 65535 }) := by
  rw [prepare_id_eq] at h
  cases hf : format (c_str id) ([c_literal "%s"].map c_str) with
  | none => rw [hf] at h; simp at h
  | some out =>
    rw [hf] at h
    simp only [Option.map_some', Option.some.injEq] at h
    exact ⟨out, rfl, h.symm⟩

set_option maxRecDepth 8000 in
/-- What `prepare_tx` returns when it returns. -/
theorem prepare_tx_some (p : data_packet_format) (id : List Nat)
    (r : Int × data_packet_format) (h : prepare_tx p id = some r) :
    ∃ out c, format (c_str id) ([c_literal "%s"].map c_str) = some out ∧
      (c.get 0 = p.code.get 0 ∧ ∀ j : Fin SIZE_CODE, 1 ≤ j.val → c.get j = 0) ∧
      r = (0, { p with command := DAT, length := SIZE_DATA_PACKET_PAYLOAD,
                       id := store p.id SIZE_ID out,
                       sequence := 0, n := 0, code := c,
                       a21 := 0, a22 := 755, a23 := 16777215,
                       status := store p.status SIZE_STATUS (c_literal "?") }) := by
  obtain ⟨c, hcs, he⟩ := prepare_tx_eq p id
  rw [he] at h
  cases hf : format (c_str id) ([c_literal "%s"].map c_str) with
  | none => rw [hf] at h; simp at h
  | some out =>
    rw [hf] at h
    simp only [Option.map_some', Option.some.injEq] at h
    exact ⟨out, c, rfl, hcs, h.symm⟩

/-! ## Frame and log of sequences of calls -/

/-- What one call leaves of the globals. -/
theorem exec_frame (net : Nat → Int) (c : Call) (w : World) :
    ∃ (t : Int) (s1 s2 : Nat) (cd : Mathlib.Vector Int SIZE_CODE) (n : Nat),
      (c.exec net w).g =
        { w.g with
          tx_sequence := t
          id_packet := { w.g.id_packet with sequence := s1 }
          tx_data_packet := { w.g.tx_data_packet with sequence := s2, code := cd, n := n } } ∧
      (n = w.g.tx_data_packet.n ∨ n = 0) := by
  cases c
  · exact ⟨_, _, w.g.tx_data_packet.sequence, w.g.tx_data_packet.code, w.g.tx_data_packet.n,
      by simp only [Call.exec, identifyclient_eq]; rfl, Or.inl rfl⟩
  · exact ⟨_, w.g.id_packet.sequence, _, _, 0, by simp only [Call.exec, send_latch_eq]; rfl, Or.inr rfl⟩
  · exact ⟨_, w.g.id_packet.sequence, _, _, 0, by simp only [Call.exec, send_unlatch_eq]; rfl, Or.inr rfl⟩

/-- What a list of calls leaves of the globals. -/
theorem run_frame (net : Nat → Int) (cs : List Call) (w : World) :
    ∃ (t : Int) (s1 s2 : Nat) (cd : Mathlib.Vector Int SIZE_CODE) (n : Nat),
      (run net cs w).g =
        { w.g with
          tx_sequence := t
          id_packet := { w.g.id_packet with sequence := s1 }
          tx_data_packet := { w.g.tx_data_packet with sequence := s2, code := cd, n := n } } ∧
      (n = w.g.tx_data_packet.n ∨ n = 0) := by
  induction cs generalizing w with
  | nil =>
    exact ⟨w.g.tx_sequence, w.g.id_packet.sequence, w.g.tx_data_packet.sequence,
      w.g.tx_data_packet.code, w.g.tx_data_packet.n, rfl, Or.inl rfl⟩
  | cons c cs ih =>
    obtain ⟨t1, a1, a2, cd1, n1, h1, hn1⟩ := exec_frame net c w
    obtain ⟨t2, b1, b2, cd2, n2, h2, hn2⟩ := ih (c.exec net w)
    refine ⟨t2, b1, b2, cd2, n2, ?_, ?_⟩
    · rw [run_cons, h2, h1]
    · rw [h1] at hn2
      rcases hn2 with h | h
      · rcases hn1 with h' | h'
        · exact Or.inl (h.trans h')
        · exact Or.inr (h.trans h')
      · exact Or.inr h

/-- The messages `identifyclient` adds. -/
theorem emitted_identify (net : Nat → Int) (w : World) :
    emitted net Call.identify w =
      [Msg.mk w.g.fd_socket (Obj.command w.g.connect_packet) SIZE_COMMAND_PACKET,
       Msg.mk w.g.fd_socket
         (Obj.data { w.g.id_packet with
            sequence := to_uint32 (to_int32 (w.g.tx_sequence + 1)) })
         SIZE_DATA_PACKET] := by
  simp [emitted, Call.exec, identifyclient_eq]

/-- The messages `send_latch` adds. -/
theorem emitted_latch (net : Nat → Int) (w : World) :
    emitted net Call.latch w =
      List.replicate 5 (Msg.mk w.g.fd_socket
        (Obj.data { w.g.tx_data_packet with
            sequence := to_uint32 (to_int32 (w.g.tx_sequence + 1)),
            code := (w.g.tx_data_packet.code.set 0 (-1)).set 1 1,
            n := 2 }) SIZE_DATA_PACKET) := by
  simp [emitted, Call.exec, send_latch_eq]

/-- The messages `send_unlatch` adds. -/
theorem emitted_unlatch (net : Nat → Int) (w : World) :
    emitted net Call.unlatch w =
      List.replicate 5 (Msg.mk w.g.fd_socket
        (Obj.data { w.g.tx_data_packet with
            sequence := to_uint32 (to_int32 (w.g.tx_sequence + 1)),
            code := (w.g.tx_data_packet.code.set 0 (-1)).set 1 2,
            n := 2 }) SIZE_DATA_PACKET) := by
  simp [emitted, Call.exec, send_unlatch_eq]

/-- A call only appends to the log. -/
theorem exec_sent (net : Nat → Int) (c : Call) (w : World) :
    (c.exec net w).sent = w.sent ++ emitted net c w := by
  cases c
  · simp [emitted, Call.exec, identifyclient_eq]
  · simp [emitted, Call.exec, send_latch_eq]
  · simp [emitted, Call.exec, send_unlatch_eq]

/-- Every data packet a call sends is the id packet or the tx template of the
world it starts in, up to `sequence`, `code` and `n = 2`. -/
theorem emitted_data (net : Nat → Int) (c : Call) (w : World) (m : Msg)
    (hm : m ∈ emitted net c w) (p : data_packet_format) (hp : m.buf = Obj.data p) :
    (c = Call.identify ∧ ∃ s, p = { w.g.id_packet with sequence := s }) ∨
    (c ≠ Call.identify ∧
      ∃ s cd, p = { w.g.tx_data_packet with sequence := s, code := cd, n := 2 }) := by
  cases c
  · rw [emitted_identify] at hm
    simp only [List.mem_cons, List.mem_singleton, List.not_mem_nil, or_false] at hm
    rcases hm with rfl | rfl
    · simp at hp
    · simp only [Obj.data.injEq] at hp
      exact Or.inl ⟨rfl, _, hp.symm⟩
  · rw [emitted_latch] at hm
    obtain ⟨-, rfl⟩ := List.mem_replicate.mp hm
    simp only [Obj.data.injEq] at hp
    exact Or.inr ⟨by decide, _, _, hp.symm⟩
  · rw [emitted_unlatch] at hm
    obtain ⟨-, rfl⟩ := List.mem_replicate.mp hm
    simp only [Obj.data.injEq] at hp
    exact Or.inr ⟨by decide, _, _, hp.symm⟩

/-- A list of calls only appends to the log, and every data packet it appends is
the id packet or the tx template of the starting world up to `sequence`, `code`
and `n = 2`. -/
theorem run_emits (net : Nat → Int) (cs : List Call) (w : World) :
    ∃ added : List Msg, (run net cs w).sent = w.sent ++ added ∧
      ∀ m ∈ added, ∀ p, m.buf = Obj.data p →
        (∃ s, p = { w.g.id_packet with sequence := s }) ∨
        (∃ s cd, p = { w.g.tx_data_packet with sequence := s, code := cd, n := 2 }) := by
  induction cs generalizing w with
  | nil => exact ⟨[], by simp [run], fun m hm => absurd hm (List.not_mem_nil m)⟩
  | cons c cs ih =>
    obtain ⟨added, hs, hall⟩ := ih (c.exec net w)
    obtain ⟨t1, a1, a2, cd1, n1, h1, -⟩ := exec_frame net c w
    refine ⟨emitted net c w ++ added, ?_, ?_⟩
    · rw [run_cons, hs, exec_sent, List.append_assoc]
    · intro m hm p hp
      rcases List.mem_append.mp hm with h | h
      · rcases emitted_data net c w m h p hp with ⟨-, h'⟩ | ⟨-, h'⟩
        · exact Or.inl h'
        · exact Or.inr h'
      · rcases hall m h p hp with ⟨s, h'⟩ | ⟨s, cd, h'⟩
        · rw [h1] at h'
          exact Or.inl ⟨s, h'⟩
        · rw [h1] at h'
          exact Or.inr ⟨s, cd, h'⟩
/-! ## Facts about the string fields and the prepared session -/

/-- A list whose entries from index `k` on are zero ends in zeros. -/
theorem drop_of_zero_tail (l : List Nat) (k : Nat)
    (h : ∀ i (hi : i < l.length), k ≤ i → l[i] = 0) :
    l.drop k = List.replicate (l.length - k) 0 := by
  apply List.ext_getElem
  · simp
  · intro i h1 h2
    simp only [List.getElem_drop, List.getElem_replicate]
    exact h _ _ (by omega)

/-- What the prepared initial session is when both `prepare` calls return. -/
theorem prepared_world_some (id : List Nat) (w0 : World) (h : prepared_world id = some w0) :
    ∃ q1 q2, prepare_id zero_data_packet id = some (0, q1) ∧
      prepare_tx zero_data_packet id = some (0, q2) ∧
      w0 = { g := { initial_session with id_packet := q1, tx_data_packet := q2 },
             sent := [] } := by
  cases h1 : prepare_id zero_data_packet id with
  | none =>
    have e : prepare_id initial_session.id_packet id = none := h1
    simp [prepared_world, prepared_session, e] at h
  | some r1 =>
    cases h2 : prepare_tx zero_data_packet id with
    | none =>
      have e1 : prepare_id initial_session.id_packet id = some r1 := h1
      have e2 : prepare_tx initial_session.tx_data_packet id = none := h2
      simp [prepared_world, prepared_session, e1, e2] at h
    | some r2 =>
      have e1 : prepare_id initial_session.id_packet id = some r1 := h1
      have e2 : prepare_tx initial_session.tx_data_packet id = some r2 := h2
      obtain ⟨o1, -, hr1⟩ := prepare_id_some _ _ _ h1
      obtain ⟨o2, c, -, -, hr2⟩ := prepare_tx_some _ _ _ h2
      simp [prepared_world, prepared_session, e1, e2] at h
      refine ⟨r1.2, r2.2, ?_, ?_, h.symm⟩
      · rw [hr1]
      · rw [hr2]

set_option maxRecDepth 100000 in
/-- The prepared initial session for the id "TEST". -/
theorem prepared_test_world : prepared_world (c_literal "TEST") = some test_world := by
  decide

set_option maxRecDepth 100000 in
/-- The id packet of `test_world` is what `prepare_id` leaves of the zero record. -/
theorem prepare_id_test :
    prepare_id zero_data_packet (c_literal "TEST") = some (0, test_world.g.id_packet) := by
  decide

set_option maxRecDepth 100000 in
/-- The tx template of `test_world` is what `prepare_tx` leaves of the zero record. -/
theorem prepare_tx_test :
    prepare_tx zero_data_packet (c_literal "TEST") = some (0, test_world.g.tx_data_packet) := by
  decide

set_option maxRecDepth 100000 in
/-- The counter of `test_world` is 0. -/
theorem test_world_tx_sequence : test_world.g.tx_sequence = 0 := by
  decide

set_option maxRecDepth 8000 in
/-- The whole status field after the version string was stored. -/
theorem store_status_version (buf : Mathlib.Vector Nat SIZE_STATUS) :
    (store buf SIZE_ID INTERFACE_VERSION).toList =
      c_literal "irmc v0.3.3" ++ ([0] ++ buf.toList.drop 12) :=
  store_toList buf SIZE_ID INTERFACE_VERSION (by decide) (by decide)

set_option maxRecDepth 8000 in
/-- The whole status field after "?" was stored. -/
theorem store_status_question (buf : Mathlib.Vector Nat SIZE_STATUS) :
    (store buf SIZE_STATUS (c_literal "?")).toList =
      c_literal "?" ++ ([0] ++ buf.toList.drop 2) :=
  store_toList buf SIZE_STATUS (c_literal "?") (by decide) (by decide)

/-! ## Counts along program runs -/

/-- C1 (as amended).  In every world `send_latch` returns 0, replaces `tx_sequence`
by its 32-bit successor `to_int32 (tx_sequence + 1)`, which is `tx_sequence + 1`
whenever `tx_sequence < INT_MAX` and `INT_MIN` at `INT_MAX`, and adds exactly five
messages to the log and nothing else.  The five are one and the same message: the tx data packet `p`,
sent whole (its 496 bytes), with `sequence` the new `tx_sequence` converted to
`unsigned int` (the same number whenever the new `tx_sequence` is not negative),
`n = 2`, `code[0] = -1` and `code[1] = 1`; afterwards the template is `p` with
`n = 0`. -/
theorem send_latch_emits_five (net : Nat → Int) (w : World) :
    (send_latch net w).1 = 0 ∧
    (send_latch net w).2.g.tx_sequence = to_int32 (w.g.tx_sequence + 1) ∧
    (INT_MIN ≤ w.g.tx_sequence → w.g.tx_sequence < INT_MAX →
      (send_latch net w).2.g.tx_sequence = w.g.tx_sequence + 1) ∧
    (w.g.tx_sequence = INT_MAX → (send_latch net w).2.g.tx_sequence = INT_MIN) ∧
    ∃ p : data_packet_format,
      (send_latch net w).2.sent =
        w.sent ++ List.replicate 5 (Msg.mk w.g.fd_socket (Obj.data p) SIZE_DATA_PACKET) ∧
      (Msg.mk w.g.fd_socket (Obj.data p) SIZE_DATA_PACKET).wire = p.bytes ∧
      p.bytes.length = 496 ∧
      (send_latch net w).2.g.tx_data_packet = { p with n := 0 } ∧
      p.sequence = to_uint32 (send_latch net w).2.g.tx_sequence ∧
      (0 ≤ (send_latch net w).2.g.tx_sequence →
        (p.sequence : Int) = (send_latch net w).2.g.tx_sequence) ∧
      p.n = 2 ∧ p.code.get 0 = -1 ∧ p.code.get 1 = 1 := by
  rw [send_latch_eq]
  refine ⟨rfl, rfl, ?_, ?_, _, rfl, data_wire_full _ _, data_bytes_length _, rfl, rfl, ?_, rfl,
    ?_, ?_⟩
  · intro h1 h2
    exact to_int32_of_range _ (by simp only [INT_MIN] at h1 ⊢; omega)
      (by simp only [INT_MAX] at h2 ⊢; omega)
  · intro h
    show to_int32 (w.g.tx_sequence + 1) = INT_MIN
    rw [h]
    decide
  · intro h
    exact to_uint32_of_nonneg _ h (to_int32_range _).2
  · show ((w.g.tx_data_packet.code.set 0 (-1)).set 1 1).get 0 = -1
    rw [Mathlib.Vector.get_set_of_ne (by decide), Mathlib.Vector.get_set_same]
  · exact Mathlib.Vector.get_set_same _ _ _

/-- C1, witness: in the initial world the counter is in range and `send_latch`
moves it from 0 to 1. -/
theorem send_latch_emits_five_witness :
    (send_latch net_ok initial_world).2.g.tx_sequence = initial_world.g.tx_sequence + 1 :=
  (send_latch_emits_five net_ok initial_world).2.2.1 (by decide) (by decide)

/-- C1, counterexample: with `tx_sequence = INT_MAX` the counter after `send_latch`
is `INT_MIN`, not `INT_MAX + 1`, and no packet sent carries a `sequence` equal to
the new `tx_sequence` (the packets carry 2147483648). -/
theorem send_latch_wraps_at_int_max :
    (send_latch net_ok overflow_world).2.g.tx_sequence ≠ overflow_world.g.tx_sequence + 1 ∧
    (send_latch net_ok overflow_world).2.g.tx_sequence = INT_MIN ∧
    ∀ m ∈ (send_latch net_ok overflow_world).2.sent, ∀ p, m.buf = Obj.data p →
      p.sequence = 2147483648 ∧
      (p.sequence : Int) ≠ (send_latch net_ok overflow_world).2.g.tx_sequence := by
  refine ⟨by decide, by decide, ?_⟩
  rw [send_latch_eq]
  intro m hm p hp
  simp only [overflow_world, List.nil_append, List.mem_replicate] at hm
  obtain ⟨-, rfl⟩ := hm
  simp only [Obj.data.injEq] at hp
  subst hp
  exact ⟨by decide, by decide⟩

/-- C2 (as amended).  In every world `identifyclient` replaces `tx_sequence` by its
32-bit successor, which is `tx_sequence + 1` whenever `tx_sequence < INT_MAX` and
`INT_MIN` at `INT_MAX`, stores the new value converted to `unsigned int` in `id_packet.sequence` (the
same number whenever it is not negative), and adds exactly two messages to the
log: first the connect packet as stored, sent whole (4 bytes), so a stored
`{CON, 5}` goes out as `{CON, 5}`; then the id packet, sent whole (496 bytes),
with the new `sequence`. -/
theorem identifyclient_emits_connect_then_id (net : Nat → Int) (w : World) :
    (identifyclient net w).2.g.tx_sequence = to_int32 (w.g.tx_sequence + 1) ∧
    (INT_MIN ≤ w.g.tx_sequence → w.g.tx_sequence < INT_MAX →
      (identifyclient net w).2.g.tx_sequence = w.g.tx_sequence + 1) ∧
    (w.g.tx_sequence = INT_MAX → (identifyclient net w).2.g.tx_sequence = INT_MIN) ∧
    (identifyclient net w).2.g.id_packet.sequence =
      to_uint32 (identifyclient net w).2.g.tx_sequence ∧
    (0 ≤ (identifyclient net w).2.g.tx_sequence →
      ((identifyclient net w).2.g.id_packet.sequence : Int) =
        (identifyclient net w).2.g.tx_sequence) ∧
    (identifyclient net w).2.sent =
      w.sent ++ [Msg.mk w.g.fd_socket (Obj.command w.g.connect_packet) SIZE_COMMAND_PACKET,
                 Msg.mk w.g.fd_socket (Obj.data (identifyclient net w).2.g.id_packet)
                   SIZE_DATA_PACKET] ∧
    (Msg.mk w.g.fd_socket (Obj.command w.g.connect_packet) SIZE_COMMAND_PACKET).wire =
      w.g.connect_packet.bytes ∧
    w.g.connect_packet.bytes.length = 4 ∧
    (w.g.connect_packet = { command := CON, channel := 5 } →
      (identifyclient net w).2.sent =
        w.sent ++ [Msg.mk w.g.fd_socket (Obj.command { command := CON, channel := 5 })
                     SIZE_COMMAND_PACKET,
                   Msg.mk w.g.fd_socket (Obj.data (identifyclient net w).2.g.id_packet)
                     SIZE_DATA_PACKET]) ∧
    (Msg.mk w.g.fd_socket (Obj.data (identifyclient net w).2.g.id_packet)
        SIZE_DATA_PACKET).wire = (identifyclient net w).2.g.id_packet.bytes ∧
    (identifyclient net w).2.g.id_packet.bytes.length = 496 := by
  rw [identifyclient_eq]
  refine ⟨rfl, ?_, ?_, rfl, ?_, rfl, command_wire_full _ _, command_bytes_length _, ?_,
    data_wire_full _ _, data_bytes_length _⟩
  · intro h1 h2
    exact to_int32_of_range _ (by simp only [INT_MIN] at h1 ⊢; omega)
      (by simp only [INT_MAX] at h2 ⊢; omega)
  · intro h
    show to_int32 (w.g.tx_sequence + 1) = INT_MIN
    rw [h]
    decide
  · intro h
    exact to_uint32_of_nonneg _ h (to_int32_range _).2
  · intro h
    rw [h]

/-- C2, witness: a fresh session whose connect packet holds channel 5 has its
counter moved from 0 to 1 and sends `{CON, 5}` first. -/
theorem identifyclient_emits_connect_then_id_witness :
    (identifyclient net_ok channel5_world).2.g.tx_sequence = 1 ∧
    (identifyclient net_ok channel5_world).2.sent =
      [] ++ [Msg.mk 0 (Obj.command { command := CON, channel := 5 }) SIZE_COMMAND_PACKET,
             Msg.mk 0 (Obj.data (identifyclient net_ok channel5_world).2.g.id_packet)
               SIZE_DATA_PACKET] :=
  ⟨(identifyclient_emits_connect_then_id net_ok channel5_world).2.1 (by decide) (by decide),
   (identifyclient_emits_connect_then_id net_ok channel5_world).2.2.2.2.2.2.2.2.1 rfl⟩

/-- C2, counterexample: with `tx_sequence = INT_MAX` the counter after
`identifyclient` is `INT_MIN`, not `INT_MAX + 1`, and `id_packet.sequence`
(2147483648) is not the new `tx_sequence`. -/
theorem identifyclient_wraps_at_int_max :
    (identifyclient net_ok overflow_world).2.g.tx_sequence ≠
      overflow_world.g.tx_sequence + 1 ∧
    (identifyclient net_ok overflow_world).2.g.tx_sequence = INT_MIN ∧
    (identifyclient net_ok overflow_world).2.g.id_packet.sequence = 2147483648 ∧
    ((identifyclient net_ok overflow_world).2.g.id_packet.sequence : Int) ≠
      (identifyclient net_ok overflow_world).2.g.tx_sequence := by
  refine ⟨by decide, by decide, by decide, by decide⟩

/-- C3.  In every world `send_unlatch` returns what `send_latch` returns, logs
the five messages `send_latch` logs with `code[1] = 2` put in each packet, and
leaves the globals `send_latch` leaves with `code[1] = 2` put in the tx template. -/
theorem send_unlatch_is_latch_with_code1 (net : Nat → Int) (w : World) :
    (send_unlatch net w).1 = (send_latch net w).1 ∧
    ((send_latch net w).2.sent.drop w.sent.length).length = 5 ∧
    (send_unlatch net w).2.sent =
      w.sent ++ ((send_latch net w).2.sent.drop w.sent.length).map (Msg.with_code1 2) ∧
    (send_unlatch net w).2.g =
      { (send_latch net w).2.g with
        tx_data_packet := with_code1 2 (send_latch net w).2.g.tx_data_packet } := by
  rw [send_unlatch_eq, send_latch_eq]
  simp [Msg.with_code1, with_code1, vector_set_set]

/-- C4 (as amended).  In every world whose `tx_sequence` is an `int` value below
`INT_MAX`, each of `identifyclient`, `send_latch` and `send_unlatch` leaves
`tx_sequence` strictly greater than it was.  Hence, for a session that starts with
`0 ≤ tx_sequence` and makes no more calls than keep the counter within `INT_MAX`,
every `sequence` carried by a data packet of an earlier call is strictly below
every `sequence` carried by a data packet of a later call. -/
theorem tx_sequence_increases_below_int_max (net : Nat → Int) (w : World)
    (h1 : INT_MIN ≤ w.g.tx_sequence) (h2 : w.g.tx_sequence < INT_MAX) :
    (w.g.tx_sequence < (identifyclient net w).2.g.tx_sequence ∧
     w.g.tx_sequence < (send_latch net w).2.g.tx_sequence ∧
     w.g.tx_sequence < (send_unlatch net w).2.g.tx_sequence) ∧
    ∀ (cs : List Call) (i j : Nat), 0 ≤ w.g.tx_sequence →
      w.g.tx_sequence + cs.length ≤ INT_MAX → i < j → j < cs.length →
      ∀ a ∈ data_sequences (emitted_at net cs w i),
      ∀ b ∈ data_sequences (emitted_at net cs w j), a < b := by
  have hs : to_int32 (w.g.tx_sequence + 1) = w.g.tx_sequence + 1 :=
    to_int32_of_range _ (by simp only [INT_MIN] at h1 ⊢; omega)
      (by simp only [INT_MAX] at h2 ⊢; omega)
  refine ⟨⟨?_, ?_, ?_⟩, ?_⟩
  · rw [identifyclient_eq]; show _ < to_int32 _; rw [hs]; omega
  · rw [send_latch_eq]; show _ < to_int32 _; rw [hs]; omega
  · rw [send_unlatch_eq]; show _ < to_int32 _; rw [hs]; omega
  · intro cs i j h0 hlen hij hj a ha b hb
    have ea := (emitted_at_data_sequences net cs w i (by omega)).2 a ha
    have eb := (emitted_at_data_sequences net cs w j hj).2 b hb
    rw [ea, eb]
    unfold to_uint32
    simp only [INT_MAX] at hlen
    omega

/-- C4, witness: the initial world (counter 0) meets the hypotheses; each call
raises the counter, and in the session identify, latch the id packet's
`sequence` is below that of the keying packets. -/
theorem tx_sequence_increases_below_int_max_witness :
    (initial_world.g.tx_sequence < (identifyclient net_ok initial_world).2.g.tx_sequence ∧
     initial_world.g.tx_sequence < (send_latch net_ok initial_world).2.g.tx_sequence ∧
     initial_world.g.tx_sequence < (send_unlatch net_ok initial_world).2.g.tx_sequence) ∧
    ∀ a ∈ data_sequences (emitted_at net_ok [Call.identify, Call.latch] initial_world 0),
    ∀ b ∈ data_sequences (emitted_at net_ok [Call.identify, Call.latch] initial_world 1),
      a < b :=
  ⟨(tx_sequence_increases_below_int_max net_ok initial_world (by decide) (by decide)).1,
   (tx_sequence_increases_below_int_max net_ok initial_world (by decide) (by decide)).2
     [Call.identify, Call.latch] 0 1 (by decide) (by decide) (by decide) (by decide)⟩

/-- C4, counterexample: with `tx_sequence = INT_MAX` none of the three calls
leaves `tx_sequence` greater than it was (each leaves `INT_MIN`). -/
theorem tx_sequence_decreases_at_int_max :
    ¬ (overflow_world.g.tx_sequence <
        (identifyclient net_ok overflow_world).2.g.tx_sequence) ∧
    ¬ (overflow_world.g.tx_sequence < (send_latch net_ok overflow_world).2.g.tx_sequence) ∧
    ¬ (overflow_world.g.tx_sequence < (send_unlatch net_ok overflow_world).2.g.tx_sequence) ∧
    (send_latch net_ok overflow_world).2.g.tx_sequence = INT_MIN := by
  refine ⟨by decide, by decide, by decide, by decide⟩

/-- C5 (as amended).  From the initial session prepared with any id (both
`prepare` calls having returned), in every list of calls the call number `k`
(counted from 1) with `k < 2^32` emits at least one data packet and each data
packet it emits carries `sequence = k`; and identify, send_latch, send_unlatch
in that order log the connect packet, one id packet (what `prepare_id` left,
with sequence 1), five tx packets with sequence 2, n = 2, code[0] = -1,
code[1] = 1, and five tx packets with sequence 3, n = 2, code[0] = -1,
code[1] = 2.  (Below, `k` counts from 0, so the value carried is `k + 1`.) -/
theorem kth_call_carries_sequence_k (net : Nat → Int) (id : List Nat) (w0 : World)
    (h0 : prepared_world id = some w0) :
    (∀ (cs : List Call) (k : Nat), k < cs.length → k + 1 < 4294967296 →
      data_sequences (emitted_at net cs w0 k) ≠ [] ∧
      ∀ s ∈ data_sequences (emitted_at net cs w0 k), s = k + 1) ∧
    ∃ q p1 p2 p3 : data_packet_format,
      (run net [Call.identify, Call.latch, Call.unlatch] w0).sent =
        [Msg.mk 0 (Obj.command { command := CON, channel := DEFAULT_CHANNEL })
           SIZE_COMMAND_PACKET,
         Msg.mk 0 (Obj.data p1) SIZE_DATA_PACKET] ++
        List.replicate 5 (Msg.mk 0 (Obj.data p2) SIZE_DATA_PACKET) ++
        List.replicate 5 (Msg.mk 0 (Obj.data p3) SIZE_DATA_PACKET) ∧
      prepare_id zero_data_packet id = some (0, q) ∧
      p1 = { q with sequence := 1 } ∧
      p2.sequence = 2 ∧ p2.n = 2 ∧ p2.code.get 0 = -1 ∧ p2.code.get 1 = 1 ∧
      p3.sequence = 3 ∧ p3.n = 2 ∧ p3.code.get 0 = -1 ∧ p3.code.get 1 = 2 := by
  obtain ⟨q1, q2, hq1, -, rfl⟩ := prepared_world_some id w0 h0
  constructor
  · intro cs k hk hk2
    obtain ⟨hne, hall⟩ := emitted_at_data_sequences net cs
      { g := { initial_session with id_packet := q1, tx_data_packet := q2 }, sent := [] } k hk
    refine ⟨hne, fun s hs => ?_⟩
    rw [hall s hs]
    show to_uint32 ((0 : Int) + k + 1) = k + 1
    unfold to_uint32
    omega
  · have e1 : to_int32 ((0 : Int) + 1) = 1 := by decide
    have e2 : to_int32 ((1 : Int) + 1) = 2 := by decide
    have e3 : to_int32 ((2 : Int) + 1) = 3 := by decide
    have u1 : to_uint32 1 = 1 := by decide
    have u2 : to_uint32 2 = 2 := by decide
    have u3 : to_uint32 3 = 3 := by decide
    refine ⟨q1, _,
      { q2 with
        sequence := 2
        code := (q2.code.set 0 (-1)).set 1 1
        n := 2 },
      { q2 with
        sequence := 3
        code := (((q2.code.set 0 (-1)).set 1 1).set 0 (-1)).set 1 2
        n := 2 }, ?_, hq1, rfl, rfl, rfl, ?_, ?_, rfl, rfl, ?_, ?_⟩
    · simp only [run, List.foldl, Call.exec, identifyclient_eq, send_latch_eq, send_unlatch_eq]
      simp only [initial_session, e1, e2, e3, u1, u2, u3,
        List.nil_append, List.append_assoc, List.cons_append]
    · rw [Mathlib.Vector.get_set_of_ne (by decide), Mathlib.Vector.get_set_same]
    · rw [Mathlib.Vector.get_set_same]
    · rw [Mathlib.Vector.get_set_of_ne (by decide), Mathlib.Vector.get_set_same]
    · rw [Mathlib.Vector.get_set_same]

/-- C5, witness: the session prepared with id "TEST"; in identify, send_latch,
send_unlatch the second call (index 1) is within the bound and its data packets
carry sequence 2. -/
theorem kth_call_carries_sequence_k_witness :
    prepared_world (c_literal "TEST") = some test_world ∧
    data_sequences
        (emitted_at net_ok [Call.identify, Call.latch, Call.unlatch] test_world 1) ≠ [] ∧
    ∀ s ∈ data_sequences
        (emitted_at net_ok [Call.identify, Call.latch, Call.unlatch] test_world 1),
      s = 1 + 1 :=
  ⟨prepared_test_world,
   (kth_call_carries_sequence_k net_ok (c_literal "TEST") test_world prepared_test_world).1
     [Call.identify, Call.latch, Call.unlatch] 1 (by decide) (by decide)⟩

/-- C5, counterexample: in a session of 2^32 `send_latch` calls from the initial
session prepared with id "TEST", the data packets of call number 2^32 (index
2^32 - 1) do not all carry sequence 2^32: the 32-bit field has wrapped to 0. -/
theorem sequence_wraps_after_2_pow_32_calls :
    prepared_world (c_literal "TEST") = some test_world ∧
    ¬ ∀ s ∈ data_sequences (emitted_at net_ok wrap_calls test_world 4294967295),
        s = 4294967295 + 1 := by
  refine ⟨prepared_test_world, ?_⟩
  have hk : 4294967295 < wrap_calls.length := by rw [wrap_calls_length]; decide
  obtain ⟨hne, hall⟩ :=
    emitted_at_data_sequences net_ok wrap_calls test_world 4294967295 hk
  intro hcon
  cases hl : data_sequences (emitted_at net_ok wrap_calls test_world 4294967295) with
  | nil => exact hne hl
  | cons s t =>
    have h1 := hall s (by rw [hl]; exact List.mem_cons_self _ _)
    have h2 := hcon s (by rw [hl]; exact List.mem_cons_self _ _)
    rw [h2, test_world_tx_sequence] at h1
    revert h1
    show ¬ (4294967295 + 1 = to_uint32 ((0 : Int) + ((4294967295 : Nat) : Int) + 1))
    decide

set_option maxRecDepth 8000 in
/-- C6, the code on ids it takes as formats.  Whenever `prepare_id` returns, it
returns 0 and leaves command = DAT = 3, length = 492, sequence = 0, n = 0,
a21 = 1, a22 = 755, a23 = 65535 and a status field that starts with the bytes of
"irmc v0.3.3" followed by a NUL; it returns for every id without `%`.  For the
id "%n" the call `snprintf (id_packet->id, SIZE_ID, id, "%s")` has no defined
result, and neither has `prepare_id`. -/
theorem prepare_id_fields_when_it_returns (p : data_packet_format) (id : List Nat) :
    (∀ r q, prepare_id p id = some (r, q) →
      r = 0 ∧ q.command = DAT ∧ DAT = 3 ∧ q.length = 492 ∧ q.sequence = 0 ∧ q.n = 0 ∧
      q.a21 = 1 ∧ q.a22 = 755 ∧ q.a23 = 65535 ∧
      q.status.toList.take 12 = c_literal "irmc v0.3.3" ++ [0]) ∧
    (0 ∉ id → 37 ∉ id → ∃ q, prepare_id p id = some (0, q)) ∧
    format (c_str (c_literal "%n")) ([c_literal "%s"].map c_str) = none ∧
    prepare_id p (c_literal "%n") = none := by
  refine ⟨?_, ?_, by decide, ?_⟩
  · intro r q h
    obtain ⟨out, -, e⟩ := prepare_id_some p id (r, q) h
    simp only [Prod.mk.injEq] at e
    obtain ⟨rfl, rfl⟩ := e
    exact ⟨rfl, rfl, rfl, rfl, rfl, rfl, rfl, rfl, rfl, store_interface_version p.status⟩
  · intro h0 h37
    rw [prepare_id_eq, plain_id_format id h0 h37]
    exact ⟨_, rfl⟩
  · rw [prepare_id_eq]
    have e : format (c_str (c_literal "%n")) ([c_literal "%s"].map c_str) = none := by decide
    rw [e]
    rfl

set_option maxRecDepth 8000 in
/-- C7, the code on ids it takes as formats.  Whenever `prepare_tx` returns, it
returns 0 and leaves command = DAT = 3, length = 492, sequence = 0, n = 0,
code[i] = 0 for every i from 1 to 50, a21 = 0, a22 = 755, a23 = 16777215 and a
status field that starts with "?" followed by a NUL, while code[0] keeps the
value it had; it returns for every id without `%`.  For the id "%n" the call
`snprintf (tx_packet->id, SIZE_ID, id, "%s")` has no defined result, and neither
has `prepare_tx`. -/
theorem prepare_tx_fields_when_it_returns (p : data_packet_format) (id : List Nat) :
    (∀ r q, prepare_tx p id = some (r, q) →
      r = 0 ∧ q.command = DAT ∧ DAT = 3 ∧ q.length = 492 ∧ q.sequence = 0 ∧ q.n = 0 ∧
      (∀ i : Fin SIZE_CODE, 1 ≤ i.val → q.code.get i = 0) ∧
      q.a21 = 0 ∧ q.a22 = 755 ∧ q.a23 = 16777215 ∧
      q.status.toList.take 2 = c_literal "?" ++ [0] ∧
      q.code.get 0 = p.code.get 0) ∧
    (0 ∉ id → 37 ∉ id → ∃ q, prepare_tx p id = some (0, q)) ∧
    format (c_str (c_literal "%n")) ([c_literal "%s"].map c_str) = none ∧
    prepare_tx p (c_literal "%n") = none := by
  refine ⟨?_, ?_, by decide, ?_⟩
  · intro r q h
    obtain ⟨out, c, -, ⟨hc0, hcpos⟩, e⟩ := prepare_tx_some p id (r, q) h
    simp only [Prod.mk.injEq] at e
    obtain ⟨rfl, rfl⟩ := e
    exact ⟨rfl, rfl, rfl, rfl, rfl, rfl, hcpos, rfl, rfl, rfl, store_question_mark p.status,
      hc0⟩
  · intro h0 h37
    obtain ⟨c, -, e⟩ := prepare_tx_eq p id
    rw [e, plain_id_format id h0 h37]
    exact ⟨_, rfl⟩
  · obtain ⟨c, -, e⟩ := prepare_tx_eq p (c_literal "%n")
    rw [e]
    have e2 : format (c_str (c_literal "%n")) ([c_literal "%s"].map c_str) = none := by decide
    rw [e2]
    rfl

set_option maxRecDepth 100000 in
/-- C8, the code at the failing input.  The id "%%" is two bytes long and has no
NUL, yet after `prepare_id` and after `prepare_tx` (both return) the id field
starts with one `%` and a NUL, not with the two bytes of the id and a NUL: the
id is read as a `printf` format. -/
theorem prepare_expands_percent :
    (c_literal "%%").length = 2 ∧ 0 ∉ c_literal "%%" ∧
    (prepare_id zero_data_packet (c_literal "%%")).map
        (fun r => (r.1, r.2.id.toList.take 3)) = some (0, [37, 0, 0]) ∧
    (prepare_tx zero_data_packet (c_literal "%%")).map
        (fun r => (r.1, r.2.id.toList.take 3)) = some (0, [37, 0, 0]) ∧
    c_literal "%%" ++ [0] = [37, 37, 0] := by
  refine ⟨by decide, by decide, by decide, by decide, by decide⟩

/-- C9.  The members of `data_packet_format`, laid out in declaration order with
their declared widths and no padding, start at offsets 0, 2, 4, 132 (a1, the
spec's reserved1), 136, 140, 144, 148, 152, 356, 360 and 488 (a4, the spec's
reserved4) and total 496 bytes = SIZE_DATA_PACKET; `command_packet_format` totals
4 bytes = SIZE_COMMAND_PACKET; SIZE_DATA_PACKET_PAYLOAD = SIZE_DATA_PACKET -
SIZE_COMMAND_PACKET = 492; and the object representations of the model have
these sizes. -/
theorem layout_matches_wire_offsets :
    field_offsets data_packet_fields =
      [("command", 0), ("length", 2), ("id", 4), ("a1", 132), ("sequence", 136), ("a21", 140),
       ("a22", 144), ("a23", 148), ("code", 152), ("n", 356), ("status", 360), ("a4", 488)] ∧
    struct_size data_packet_fields = 496 ∧
    struct_size data_packet_fields = SIZE_DATA_PACKET ∧
    struct_size command_packet_fields = 4 ∧
    struct_size command_packet_fields = SIZE_COMMAND_PACKET ∧
    SIZE_DATA_PACKET_PAYLOAD = SIZE_DATA_PACKET - SIZE_COMMAND_PACKET ∧
    SIZE_DATA_PACKET_PAYLOAD = 492 ∧
    (∀ p : data_packet_format, p.bytes.length = struct_size data_packet_fields) ∧
    (∀ p : command_packet_format, p.bytes.length = struct_size command_packet_fields) := by
  refine ⟨by decide, by decide, by decide, by decide, by decide, by decide, by decide, ?_, ?_⟩
  · intro p; rw [data_bytes_length]; decide
  · intro p; rw [command_bytes_length]; decide

set_option maxRecDepth 100000 in
/-- C10.  The initial session prepared with id "TEST" (both `prepare` calls
return) sends on `identifyclient` two messages: 4 bytes `04 00 67 00`, then 496
bytes that start with `03 00 EC 01 54 45 53 54 00`; and the disconnect packet
`{DIS, 0}` has the bytes `02 00 00 00`. -/
theorem identify_wire_bytes :
    (prepared_world (c_literal "TEST")).map (fun w =>
        ((identifyclient net_ok w).2.sent.map Msg.wire).map
          (fun b => (b.length, b.take 9))) =
      some [(4, [0x04, 0x00, 0x67, 0x00]),
            (496, [0x03, 0x00, 0xEC, 0x01, 0x54, 0x45, 0x53, 0x54, 0x00])] ∧
    initial_session.disconnect_packet = { command := DIS, channel := 0 } ∧
    initial_session.disconnect_packet.bytes = [0x02, 0x00, 0x00, 0x00] := by
  refine ⟨by decide, by decide, by decide⟩

/-- C11.  In a world whose id packet is what `prepare_id` left and whose tx
template is what `prepare_tx` left, any list of calls to `identifyclient`,
`send_latch` and `send_unlatch` only appends to the log, and every data packet
it appends has command = DAT, length = 492 and a22 = 755. -/
theorem data_packets_keep_constants (net : Nat → Int) (w : World)
    (p0 q0 : data_packet_format) (id1 id2 : List Nat)
    (hid : prepare_id p0 id1 = some (0, w.g.id_packet))
    (htx : prepare_tx q0 id2 = some (0, w.g.tx_data_packet)) (cs : List Call) :
    ∃ added : List Msg, (run net cs w).sent = w.sent ++ added ∧
      ∀ m ∈ added, ∀ p, m.buf = Obj.data p →
        p.command = DAT ∧ p.length = 492 ∧ p.a22 = 755 := by
  obtain ⟨added, hs, hall⟩ := run_emits net cs w
  obtain ⟨o1, -, e1⟩ := prepare_id_some p0 id1 _ hid
  obtain ⟨o2, c, -, -, e2⟩ := prepare_tx_some q0 id2 _ htx
  simp only [Prod.mk.injEq, true_and] at e1 e2
  refine ⟨added, hs, fun m hm p hp => ?_⟩
  rcases hall m hm p hp with ⟨s, h⟩ | ⟨s, cd, h⟩
  · rw [h, e1]
    exact ⟨rfl, rfl, rfl⟩
  · rw [h, e2]
    exact ⟨rfl, rfl, rfl⟩

/-- C11, witness: the initial session prepared with id "TEST", then identify,
send_latch, send_unlatch. -/
theorem data_packets_keep_constants_witness :
    ∃ added : List Msg,
      (run net_ok [Call.identify, Call.latch, Call.unlatch] test_world).sent =
        test_world.sent ++ added ∧
      ∀ m ∈ added, ∀ p, m.buf = Obj.data p →
        p.command = DAT ∧ p.length = 492 ∧ p.a22 = 755 :=
  data_packets_keep_constants net_ok test_world
    zero_data_packet zero_data_packet (c_literal "TEST") (c_literal "TEST")
    prepare_id_test prepare_tx_test [Call.identify, Call.latch, Call.unlatch]

/-- C12.  In a world prepared by `prepare_id` and `prepare_tx`, after any list of
preceding calls, `identifyclient` sends the connect packet and one data packet
with a21 = 1 and a23 = 65535, and `send_latch` and `send_unlatch` each send
five copies of one data packet with a21 = 0 and a23 = 16777215. -/
theorem magic_numbers_by_kind (net : Nat → Int) (w : World)
    (p0 q0 : data_packet_format) (id1 id2 : List Nat)
    (hid : prepare_id p0 id1 = some (0, w.g.id_packet))
    (htx : prepare_tx q0 id2 = some (0, w.g.tx_data_packet)) (cs : List Call) :
    (∃ p, emitted net Call.identify (run net cs w) =
        [Msg.mk w.g.fd_socket (Obj.command w.g.connect_packet) SIZE_COMMAND_PACKET,
         Msg.mk w.g.fd_socket (Obj.data p) SIZE_DATA_PACKET] ∧
      p.a21 = 1 ∧ p.a23 = 65535) ∧
    (∃ p, emitted net Call.latch (run net cs w) =
        List.replicate 5 (Msg.mk w.g.fd_socket (Obj.data p) SIZE_DATA_PACKET) ∧
      p.a21 = 0 ∧ p.a23 = 16777215) ∧
    (∃ p, emitted net Call.unlatch (run net cs w) =
        List.replicate 5 (Msg.mk w.g.fd_socket (Obj.data p) SIZE_DATA_PACKET) ∧
      p.a21 = 0 ∧ p.a23 = 16777215) := by
  obtain ⟨t, s1, s2, cd, n, hg, -⟩ := run_frame net cs w
  obtain ⟨o1, -, e1⟩ := prepare_id_some p0 id1 _ hid
  obtain ⟨o2, c, -, -, e2⟩ := prepare_tx_some q0 id2 _ htx
  simp only [Prod.mk.injEq, true_and] at e1 e2
  refine ⟨?_, ?_, ?_⟩
  · rw [emitted_identify, hg]
    refine ⟨_, rfl, ?_, ?_⟩
    · show w.g.id_packet.a21 = 1
      rw [e1]
    · show w.g.id_packet.a23 = 65535
      rw [e1]
  · rw [emitted_latch, hg]
    refine ⟨_, rfl, ?_, ?_⟩
    · show w.g.tx_data_packet.a21 = 0
      rw [e2]
    · show w.g.tx_data_packet.a23 = 16777215
      rw [e2]
  · rw [emitted_unlatch, hg]
    refine ⟨_, rfl, ?_, ?_⟩
    · show w.g.tx_data_packet.a21 = 0
      rw [e2]
    · show w.g.tx_data_packet.a23 = 16777215
      rw [e2]

/-- C12, witness: the initial session prepared with id "TEST" after one
`send_latch`. -/
theorem magic_numbers_by_kind_witness :
    (∃ p, emitted net_ok Call.identify (run net_ok [Call.latch] test_world) =
        [Msg.mk test_world.g.fd_socket
           (Obj.command test_world.g.connect_packet) SIZE_COMMAND_PACKET,
         Msg.mk test_world.g.fd_socket (Obj.data p) SIZE_DATA_PACKET] ∧
      p.a21 = 1 ∧ p.a23 = 65535) ∧
    (∃ p, emitted net_ok Call.latch (run net_ok [Call.latch] test_world) =
        List.replicate 5
          (Msg.mk test_world.g.fd_socket (Obj.data p) SIZE_DATA_PACKET) ∧
      p.a21 = 0 ∧ p.a23 = 16777215) :=
  ⟨(magic_numbers_by_kind net_ok test_world zero_data_packet zero_data_packet
      (c_literal "TEST") (c_literal "TEST") prepare_id_test prepare_tx_test [Call.latch]).1,
   (magic_numbers_by_kind net_ok test_world zero_data_packet zero_data_packet
      (c_literal "TEST") (c_literal "TEST") prepare_id_test prepare_tx_test [Call.latch]).2.1⟩

/-- C13 (as amended).  `identifyclient` surfaces no send failure: whatever the
two `send` calls return, it returns the same (empty) result, leaves the same
globals and has handed the same two messages to `send`, the id packet after the
connect packet. -/
theorem identifyclient_ignores_send_results (net1 net2 : Nat → Int) (w : World) :
    identifyclient net1 w = identifyclient net2 w ∧
    (identifyclient net1 w).1 = () ∧
    (identifyclient net1 w).2.sent =
      w.sent ++ [Msg.mk w.g.fd_socket (Obj.command w.g.connect_packet) SIZE_COMMAND_PACKET,
                 Msg.mk w.g.fd_socket (Obj.data (identifyclient net1 w).2.g.id_packet)
                   SIZE_DATA_PACKET] := by
  rw [identifyclient_eq, identifyclient_eq]
  exact ⟨rfl, rfl, rfl⟩

/-- C13, counterexample: on a transport where both sends fail (return -1) the
result of `identifyclient` and the world it leaves are those of the run in which
both sends succeed; nothing distinguishes the two runs. -/
theorem identifyclient_hides_failed_sends :
    (send net_fail initial_world initial_world.g.fd_socket
        (Obj.command initial_world.g.connect_packet) SIZE_COMMAND_PACKET).1 = -1 ∧
    net_fail 0 = -1 ∧ net_fail 1 = -1 ∧ 0 ≤ net_ok 0 ∧ 0 ≤ net_ok 1 ∧
    identifyclient net_fail initial_world = identifyclient net_ok initial_world := by
  refine ⟨by decide, by decide, by decide, by decide, by decide, ?_⟩
  rw [identifyclient_eq, identifyclient_eq]

/-- C14 (as amended).  Whenever `prepare_id` returns, it has left a1 (reserved1),
the 51 code entries and a4 (reserved4) exactly as they were; they are zero
afterwards when they were zero before, as in a zero-initialised record. -/
theorem prepare_id_keeps_other_fields (p : data_packet_format) (id : List Nat)
    (r : Int) (q : data_packet_format) (h : prepare_id p id = some (r, q)) :
    q.a1 = p.a1 ∧ q.code = p.code ∧ q.a4 = p.a4 ∧
    (p.a1 = Mathlib.Vector.replicate 4 0 → p.code = Mathlib.Vector.replicate SIZE_CODE 0 →
      p.a4 = Mathlib.Vector.replicate 8 0 →
      (∀ i, q.a1.get i = 0) ∧ (∀ i, q.code.get i = 0) ∧ (∀ i, q.a4.get i = 0)) := by
  obtain ⟨out, -, e⟩ := prepare_id_some p id (r, q) h
  simp only [Prod.mk.injEq] at e
  obtain ⟨-, rfl⟩ := e
  refine ⟨rfl, rfl, rfl, ?_⟩
  intro h1 h2 h3
  simp only [h1, h2, h3]
  exact ⟨fun i => Mathlib.Vector.get_replicate _ _, fun i => Mathlib.Vector.get_replicate _ _,
    fun i => Mathlib.Vector.get_replicate _ _⟩

/-- C14, witness: `prepare_id` returns on the zero-initialised record with id
"TEST", and the three fields are zero afterwards. -/
theorem prepare_id_keeps_other_fields_witness :
    prepare_id zero_data_packet (c_literal "TEST") = some (0, test_world.g.id_packet) ∧
    (∀ i, test_world.g.id_packet.a1.get i = 0) ∧
    (∀ i, test_world.g.id_packet.code.get i = 0) ∧
    (∀ i, test_world.g.id_packet.a4.get i = 0) :=
  ⟨prepare_id_test,
   (prepare_id_keeps_other_fields zero_data_packet (c_literal "TEST") 0
      test_world.g.id_packet prepare_id_test).2.2.2 rfl rfl rfl⟩

set_option maxRecDepth 100000 in
/-- C14, counterexample: on a record whose bytes are all 0xAA, `prepare_id`
returns 0 and a1, code and a4 still hold 0xAA bytes; they are not zero. -/
theorem prepare_id_leaves_leftover_data :
    (prepare_id dirty_data_packet (c_literal "TEST")).map
        (fun r => (r.1, r.2.a1.toList, r.2.code.get 0, r.2.code.get 50, r.2.a4.toList)) =
      some (0, [170, 170, 170, 170], -1431655766, -1431655766,
            [170, 170, 170, 170, 170, 170, 170, 170]) := by
  decide

set_option maxRecDepth 8000 in
/-- C15.  Once the id packet is what `prepare_id` left, after any list of calls to
`identifyclient`, `send_latch` and `send_unlatch` its status field starts with
"irmc v0.3.3" and a NUL, and so does the status field of the id packet a
following `identifyclient` sends. -/
theorem id_status_stays_interface_version (net : Nat → Int) (w : World)
    (p0 : data_packet_format) (id : List Nat)
    (hid : prepare_id p0 id = some (0, w.g.id_packet)) (cs : List Call) :
    (run net cs w).g.id_packet.status.toList.take 12 = c_literal "irmc v0.3.3" ++ [0] ∧
    ∃ p, emitted net Call.identify (run net cs w) =
        [Msg.mk w.g.fd_socket (Obj.command w.g.connect_packet) SIZE_COMMAND_PACKET,
         Msg.mk w.g.fd_socket (Obj.data p) SIZE_DATA_PACKET] ∧
      p.status.toList.take 12 = c_literal "irmc v0.3.3" ++ [0] := by
  obtain ⟨t, s1, s2, cd, n, hg, -⟩ := run_frame net cs w
  obtain ⟨o1, -, e1⟩ := prepare_id_some p0 id _ hid
  simp only [Prod.mk.injEq, true_and] at e1
  have hst : w.g.id_packet.status.toList.take 12 = c_literal "irmc v0.3.3" ++ [0] := by
    rw [e1]
    exact store_interface_version p0.status
  refine ⟨?_, ?_⟩
  · rw [hg]
    exact hst
  · rw [emitted_identify, hg]
    exact ⟨_, rfl, hst⟩

/-- C15, witness: the initial session prepared with id "TEST" after identify and
send_latch. -/
theorem id_status_stays_interface_version_witness :
    (run net_ok [Call.identify, Call.latch] test_world).g.id_packet.status.toList.take 12
      = c_literal "irmc v0.3.3" ++ [0] ∧
    ∃ p, emitted net_ok Call.identify (run net_ok [Call.identify, Call.latch] test_world)
        = [Msg.mk test_world.g.fd_socket
             (Obj.command test_world.g.connect_packet) SIZE_COMMAND_PACKET,
           Msg.mk test_world.g.fd_socket (Obj.data p) SIZE_DATA_PACKET] ∧
      p.status.toList.take 12 = c_literal "irmc v0.3.3" ++ [0] :=
  id_status_stays_interface_version net_ok test_world zero_data_packet (c_literal "TEST")
    prepare_id_test [Call.identify, Call.latch]

set_option maxRecDepth 8000 in
/-- C16 (as amended).  For every record and every id without `%` (and, as a C
string, without NUL), `prepare_id` and `prepare_tx` return 0 and store the same
id field.  When the id is shorter than 128 bytes the field holds the id, one
NUL, and behind it the bytes the field held before; it is the id padded with
NULs when those bytes were zero.  When the id has 128 bytes or more the field
holds its first 127 bytes and a NUL.  The status field holds its string, one
NUL, and behind it its old bytes; it is the string followed only by NULs when
those were zero. -/
theorem string_fields_keep_old_tail (p : data_packet_format) (id : List Nat)
    (h0 : 0 ∉ id) (h37 : 37 ∉ id) :
    ∃ q1 q2 : data_packet_format,
      prepare_id p id = some (0, q1) ∧ prepare_tx p id = some (0, q2) ∧
      q2.id = q1.id ∧
      (id.length < 128 →
        q1.id.toList = id ++ ([0] ++ p.id.toList.drop (id.length + 1)) ∧
        ((∀ i : Fin SIZE_ID, id.length < i.val → p.id.get i = 0) →
          q1.id.toList = id ++ List.replicate (128 - id.length) 0)) ∧
      (128 ≤ id.length → q1.id.toList = id.take 127 ++ [0]) ∧
      q1.status.toList = c_literal "irmc v0.3.3" ++ ([0] ++ p.status.toList.drop 12) ∧
      q2.status.toList = c_literal "?" ++ ([0] ++ p.status.toList.drop 2) ∧
      ((∀ i : Fin SIZE_STATUS, 2 ≤ i.val → p.status.get i = 0) →
        q1.status.toList = c_literal "irmc v0.3.3" ++ List.replicate 117 0 ∧
        q2.status.toList = c_literal "?" ++ List.replicate 127 0) := by
  obtain ⟨c, -, etx⟩ := prepare_tx_eq p id
  have hidf := store_toList p.id SIZE_ID id (by decide) (by decide)
  have hs1 := store_status_version p.status
  have hs2 := store_status_question p.status
  have hlen1 : p.id.toList.length = 128 := p.id.toList_length
  have hlen2 : p.status.toList.length = 128 := p.status.toList_length
  rw [etx, prepare_id_eq, plain_id_format id h0 h37]
  refine ⟨_, _, rfl, rfl, rfl, ?_, ?_, hs1, hs2, ?_⟩
  · intro hlt
    have hmin : min id.length (SIZE_ID - 1) = id.length := by
      show min id.length 127 = id.length
      omega
    have htake : id.take (SIZE_ID - 1) = id := List.take_of_length_le (by
      show id.length ≤ 127
      omega)
    rw [hmin, htake] at hidf
    refine ⟨hidf, fun hz => ?_⟩
    show (store p.id SIZE_ID id).toList = _
    rw [hidf, drop_of_zero_tail p.id.toList (id.length + 1)]
    · rw [hlen1]
      have : 128 - id.length = (128 - (id.length + 1)) + 1 := by omega
      rw [this, List.replicate_succ]
      rfl
    · intro i hi hk
      have := hz ⟨i, by rw [hlen1] at hi; exact hi⟩ (by simpa using hk)
      rw [Mathlib.Vector.get_eq_get] at this
      simpa using this
  · intro hge
    have hmin : min id.length (SIZE_ID - 1) = 127 := by
      show min id.length 127 = 127
      omega
    rw [hmin] at hidf
    show (store p.id SIZE_ID id).toList = _
    rw [hidf, List.drop_of_length_le (by omega)]
    simp
  · intro hz
    have hd : ∀ k, 2 ≤ k → p.status.toList.drop k = List.replicate (128 - k) 0 := by
      intro k hk
      rw [drop_of_zero_tail p.status.toList k, hlen2]
      intro i hi hki
      have := hz ⟨i, by rw [hlen2] at hi; exact hi⟩ (by show 2 ≤ i; omega)
      rw [Mathlib.Vector.get_eq_get] at this
      simpa using this
    show (store p.status SIZE_ID INTERFACE_VERSION).toList = _ ∧
      (store p.status SIZE_STATUS (c_literal "?")).toList = _
    rw [hs1, hs2, hd 12 (by decide), hd 2 (by decide)]
    exact ⟨rfl, rfl⟩

set_option maxRecDepth 100000 in
/-- C16, witness: on the zero-initialised record both functions return with id
"TEST", and the id field after `prepare_id` is "TEST" followed by 124 NULs. -/
theorem string_fields_keep_old_tail_witness :
    ∃ q1 q2 : data_packet_format,
      prepare_id zero_data_packet (c_literal "TEST") = some (0, q1) ∧
      prepare_tx zero_data_packet (c_literal "TEST") = some (0, q2) ∧
      q1.id.toList = c_literal "TEST" ++ List.replicate (128 - (c_literal "TEST").length) 0 := by
  obtain ⟨q1, q2, h1, h2, -, hA, -⟩ :=
    string_fields_keep_old_tail zero_data_packet (c_literal "TEST") (by decide) (by decide)
  exact ⟨q1, q2, h1, h2, (hA (by decide)).2 (by decide)⟩

set_option maxRecDepth 100000 in
/-- C16, counterexample: on a record whose bytes are all 0xAA, both functions
return 0 with id "TEST"; the id field is "TEST", one NUL, then 0xAA bytes, and
the status field is its string, one NUL, then 0xAA bytes: neither is padded
with NULs. -/
theorem string_fields_not_padded_over_leftover_data :
    (prepare_id dirty_data_packet (c_literal "TEST")).map
        (fun r => (r.1, r.2.id.toList.take 8, (r.2.status.toList.drop 11).take 3)) =
      some (0, [84, 69, 83, 84, 0, 170, 170, 170], [0, 170, 170]) ∧
    (prepare_tx dirty_data_packet (c_literal "TEST")).map
        (fun r => (r.1, r.2.id.toList.take 8, r.2.status.toList.take 4)) =
      some (0, [84, 69, 83, 84, 0, 170, 170, 170], [63, 0, 170, 170]) ∧
    (prepare_id dirty_data_packet (c_literal "TEST")).map (fun r => r.2.id.toList) ≠
      some (c_literal "TEST" ++ List.replicate 124 0) := by
  refine ⟨by decide, by decide, by decide⟩

/-- C17.  Whatever the individual `send` calls return, `send_latch` and
`send_unlatch` give the result and leave the world (globals and log) of the run
in which every send succeeds: they return 0 and hand the same packet to `send`
five times. -/
theorem five_sends_whatever_the_results (net : Nat → Int) (w : World) :
    (send_latch net w = send_latch net_ok w ∧
     (send_latch net w).1 = 0 ∧
     ∃ p, (send_latch net w).2.sent =
       w.sent ++ List.replicate 5 (Msg.mk w.g.fd_socket (Obj.data p) SIZE_DATA_PACKET)) ∧
    (send_unlatch net w = send_unlatch net_ok w ∧
     (send_unlatch net w).1 = 0 ∧
     ∃ p, (send_unlatch net w).2.sent =
       w.sent ++ List.replicate 5 (Msg.mk w.g.fd_socket (Obj.data p) SIZE_DATA_PACKET)) := by
  rw [send_latch_eq, send_latch_eq, send_unlatch_eq, send_unlatch_eq]
  exact ⟨⟨rfl, rfl, _, rfl⟩, ⟨rfl, rfl, _, rfl⟩⟩

/-- C19.  `send_latch` and `send_unlatch` leave the globals as they were except
`tx_sequence` and the tx template, which is the packet that was sent with `n = 0`
in place of `n = 2`; that packet is the old template except `sequence`,
`code[0] = -1` and `code[1]` (1 or 2), the entries `code[2..50]` being the old
ones.  `identifyclient` leaves the globals as they were except `tx_sequence` and
`id_packet.sequence`.  So none of the three changes `connect_packet`,
`disconnect_packet`, `rx_data_packet`, `rx_sequence`, `fd_socket`, the other data
packet, or the command, length, id, a1, a21, a22, a23, status or a4 of either
data packet. -/
theorem engine_frame (net : Nat → Int) (w : World) :
    (∃ p : data_packet_format,
      (send_latch net w).2.sent =
        w.sent ++ List.replicate 5 (Msg.mk w.g.fd_socket (Obj.data p) SIZE_DATA_PACKET) ∧
      (send_latch net w).2.g =
        { w.g with tx_sequence := to_int32 (w.g.tx_sequence + 1),
                   tx_data_packet := { p with n := 0 } } ∧
      p = { w.g.tx_data_packet with sequence := p.sequence, code := p.code, n := 2 } ∧
      p.code.get 0 = -1 ∧ p.code.get 1 = 1 ∧
      ∀ j : Fin SIZE_CODE, 2 ≤ j.val → p.code.get j = w.g.tx_data_packet.code.get j) ∧
    (∃ p : data_packet_format,
      (send_unlatch net w).2.sent =
        w.sent ++ List.replicate 5 (Msg.mk w.g.fd_socket (Obj.data p) SIZE_DATA_PACKET) ∧
      (send_unlatch net w).2.g =
        { w.g with tx_sequence := to_int32 (w.g.tx_sequence + 1),
                   tx_data_packet := { p with n := 0 } } ∧
      p = { w.g.tx_data_packet with sequence := p.sequence, code := p.code, n := 2 } ∧
      p.code.get 0 = -1 ∧ p.code.get 1 = 2 ∧
      ∀ j : Fin SIZE_CODE, 2 ≤ j.val → p.code.get j = w.g.tx_data_packet.code.get j) ∧
    (identifyclient net w).2.g =
      { w.g with tx_sequence := to_int32 (w.g.tx_sequence + 1),
                 id_packet := { w.g.id_packet with
                   sequence := to_uint32 (to_int32 (w.g.tx_sequence + 1)) } } ∧
    (identifyclient net w).2.g.tx_data_packet = w.g.tx_data_packet ∧
    (send_latch net w).2.g.id_packet = w.g.id_packet ∧
    (send_unlatch net w).2.g.id_packet = w.g.id_packet ∧
    ∀ c : Call,
      (c.exec net w).g.connect_packet = w.g.connect_packet ∧
      (c.exec net w).g.disconnect_packet = w.g.disconnect_packet ∧
      (c.exec net w).g.rx_data_packet = w.g.rx_data_packet ∧
      (c.exec net w).g.rx_sequence = w.g.rx_sequence ∧
      (c.exec net w).g.fd_socket = w.g.fd_socket ∧
      same_fixed_members (c.exec net w).g.id_packet w.g.id_packet ∧
      same_fixed_members (c.exec net w).g.tx_data_packet w.g.tx_data_packet := by
  have hall : ∀ c : Call,
      (c.exec net w).g.connect_packet = w.g.connect_packet ∧
      (c.exec net w).g.disconnect_packet = w.g.disconnect_packet ∧
      (c.exec net w).g.rx_data_packet = w.g.rx_data_packet ∧
      (c.exec net w).g.rx_sequence = w.g.rx_sequence ∧
      (c.exec net w).g.fd_socket = w.g.fd_socket ∧
      same_fixed_members (c.exec net w).g.id_packet w.g.id_packet ∧
      same_fixed_members (c.exec net w).g.tx_data_packet w.g.tx_data_packet := by
    intro c
    obtain ⟨t, s1, s2, cd, n, hg, -⟩ := exec_frame net c w
    rw [hg]
    exact ⟨rfl, rfl, rfl, rfl, rfl, ⟨rfl, rfl, rfl, rfl, rfl, rfl, rfl, rfl, rfl⟩,
      ⟨rfl, rfl, rfl, rfl, rfl, rfl, rfl, rfl, rfl⟩⟩
  have hrest : ∀ (v : Int) (j : Fin SIZE_CODE), 2 ≤ j.val →
      ((w.g.tx_data_packet.code.set 0 (-1)).set 1 v).get j = w.g.tx_data_packet.code.get j := by
    intro v j hj
    have h1 : (1 : Fin SIZE_CODE) ≠ j := fun e => by rw [← e] at hj; exact absurd hj (by decide)
    have h0 : (0 : Fin SIZE_CODE) ≠ j := fun e => by rw [← e] at hj; exact absurd hj (by decide)
    rw [Mathlib.Vector.get_set_of_ne h1, Mathlib.Vector.get_set_of_ne h0]
  rw [send_latch_eq, send_unlatch_eq, identifyclient_eq]
  refine ⟨⟨_, rfl, rfl, rfl, ?_, ?_, hrest 1⟩, ⟨_, rfl, rfl, rfl, ?_, ?_, hrest 2⟩, rfl, rfl, rfl,
    rfl, hall⟩
  · show ((w.g.tx_data_packet.code.set 0 (-1)).set 1 1).get 0 = -1
    rw [Mathlib.Vector.get_set_of_ne (by decide), Mathlib.Vector.get_set_same]
  · exact Mathlib.Vector.get_set_same _ _ _
  · show ((w.g.tx_data_packet.code.set 0 (-1)).set 1 2).get 0 = -1
    rw [Mathlib.Vector.get_set_of_ne (by decide), Mathlib.Vector.get_set_same]
  · exact Mathlib.Vector.get_set_same _ _ _

end CWProtocol
